import Mathlib

/-!
Verification of the travelbuddy repository's behavioral specification.

Each Python function relevant to the claims is shallowly embedded as a Lean
definition.  External effects (HTTP requests, LLM calls, the system clock)
are passed in explicitly as environment records, so the embedded functions
are pure; Python exceptions are modelled with `Except`, and Python `dict`s
with association lists.  Machine floats appear only as timestamps and are
modelled by `ℚ`.
-/

/- ------------------------------------------------------------------ -/
/- Python-semantics helpers                                            -/
/- ------------------------------------------------------------------ -/

/-- Truthiness of a Python `Optional[float]`: `None` and `0.0` are falsy. -/
def pyTruthyOptQ : Option ℚ → Bool
  | none => false
  | some t => decide (t ≠ 0)

/-- Truthiness of a Python `Optional[str]`: `None` and `""` are falsy. -/
def pyTruthyOptStr : Option String → Bool
  | none => false
  | some s => decide (s ≠ "")

/-- Python `str.lower()` (ASCII, as used on these inputs). -/
def pyLower (s : String) : String := ⟨s.data.map Char.toLower⟩

/-- Python `str.upper()` (ASCII, as used on these inputs). -/
def pyUpper (s : String) : String := ⟨s.data.map Char.toUpper⟩

/-- The whitespace characters Python `str.strip()` removes (the ones that
can occur in these inputs). -/
def isPySpace (c : Char) : Bool := c = ' ' || c = '\t' || c = '\n' || c = '\r'

/-- Python `str.strip()`. -/
def pyStrip (s : String) : String :=
  ⟨((s.data.dropWhile isPySpace).reverse.dropWhile isPySpace).reverse⟩

/-- Python slicing `s[:n]`. -/
def pyTake (n : Nat) (s : String) : String := ⟨s.data.take n⟩

/- ------------------------------------------------------------------ -/
/- server/tools/amadeus_api.py, class RateLimiter (claim C3)           -/
/- The identical class also appears in amadeus_hotels_api.py.          -/
/- ------------------------------------------------------------------ -/

/-- State of `RateLimiter`: `max_calls`, `time_frame`, `call_timestamps`,
`last_429_time`, `backoff_time`.  Timestamps are seconds as `ℚ`. -/
structure RateLimiterState where
  maxCalls : Nat
  timeFrame : ℚ
  callTimestamps : List ℚ
  last429Time : Option ℚ
  backoffTime : ℚ
  deriving Repr

/-- `RateLimiter()` as constructed at module scope (`rate_limiter = RateLimiter()`):
`max_calls=10`, `time_frame=1`, no calls, no 429 seen, `backoff_time = 5`. -/
def mkRateLimiter : RateLimiterState :=
  { maxCalls := 10, timeFrame := 1, callTimestamps := [], last429Time := none,
    backoffTime := 5 }

/-- `RateLimiter.record_429`, called at clock time `t`:
sets `last_429_time = time.time()` and `backoff_time = min(backoff_time * 2, 60)`. -/
def record_429 (t : ℚ) (st : RateLimiterState) : RateLimiterState :=
  { st with last429Time := some t, backoffTime := min (st.backoffTime * 2) 60 }

/-- `RateLimiter.record_call` at clock time `t`. -/
def record_call (t : ℚ) (st : RateLimiterState) : RateLimiterState :=
  { st with callTimestamps := st.callTimestamps ++ [t] }

/-- `RateLimiter.wait_time` evaluated at clock time `now`.  The Python code
first drops timestamps older than `time_frame`, then, when `last_429_time`
is truthy and `now - last_429_time < backoff_time`, returns the remaining
backoff; otherwise it applies the sliding-window limit.  (`ts.headI` models
`self.call_timestamps[0]`, reached only when the filtered list has at least
`max_calls ≥ 1` elements.) -/
def wait_time (st : RateLimiterState) (now : ℚ) : ℚ :=
  let ts := st.callTimestamps.filter fun x => decide (now - x ≤ st.timeFrame)
  if pyTruthyOptQ st.last429Time && decide (now - st.last429Time.getD 0 < st.backoffTime) then
    st.backoffTime - (now - st.last429Time.getD 0)
  else if st.maxCalls ≤ ts.length then
    max 0 (st.timeFrame - (now - ts.headI))
  else 0

/-- Applying `record_429` once for each clock time in `ts`, in order. -/
def record429Many (ts : List ℚ) (st : RateLimiterState) : RateLimiterState :=
  ts.foldl (fun s t => record_429 t s) st

lemma record429Many_backoff (ts : List ℚ) (st : RateLimiterState)
    (hb : st.backoffTime ≤ 60) :
    (record429Many ts st).backoffTime = min (st.backoffTime * 2 ^ ts.length) 60 := by
  induction ts generalizing st with
  | nil =>
    simp [record429Many, min_eq_left hb]
  | cons t ts ih =>
    have hstep : (record_429 t st).backoffTime = min (st.backoffTime * 2) 60 := rfl
    have h2 : (record_429 t st).backoffTime ≤ 60 := by
      rw [hstep]; exact min_le_right _ _
    have := ih (record_429 t st) h2
    rw [record429Many] at *
    simp only [List.foldl_cons] at *
    rw [this, hstep]
    rcases le_total (st.backoffTime * 2) 60 with h | h
    · rw [min_eq_left h, List.length_cons]
      ring_nf
    · rw [min_eq_right h]
      have h1 : (1 : ℚ) ≤ 2 ^ ts.length := one_le_pow₀ (by norm_num)
      have h60 : (60 : ℚ) ≤ 60 * 2 ^ ts.length := le_mul_of_one_le_right (by norm_num) h1
      have h60b : (60 : ℚ) ≤ st.backoffTime * 2 ^ (ts.length + 1) := by
        calc (60 : ℚ) ≤ 60 * 2 ^ ts.length := h60
        _ ≤ (st.backoffTime * 2) * 2 ^ ts.length := by
            apply mul_le_mul_of_nonneg_right h (by positivity)
        _ = st.backoffTime * 2 ^ (ts.length + 1) := by ring
      rw [min_eq_right h60, List.length_cons, min_eq_right h60b]

/-- C3: every `record_429` call doubles `backoff_time` and caps it at 60; starting
from the initial 5 seconds, `n` successive 429s leave `backoff_time = min (5 * 2^n) 60`
(so 10, 20, 40, 60, 60, ...), and while `now - last_429_time < backoff_time` the
`wait_time` function returns the strictly positive remaining wait
`backoff_time - (now - last_429_time)`. -/
theorem rateLimiter_backoff_spec :
    (∀ (t : ℚ) (st : RateLimiterState),
        (record_429 t st).backoffTime = min (st.backoffTime * 2) 60) ∧
    (∀ ts : List ℚ,
        (record429Many ts mkRateLimiter).backoffTime = min (5 * 2 ^ ts.length) 60) ∧
    (∀ ts : List ℚ, 4 ≤ ts.length → (record429Many ts mkRateLimiter).backoffTime = 60) ∧
    (∀ (st : RateLimiterState) (now t : ℚ), st.last429Time = some t → 0 < t →
        now - t < st.backoffTime →
        wait_time st now = st.backoffTime - (now - t) ∧ 0 < wait_time st now) := by
  refine ⟨fun t st => rfl, ?_, ?_, ?_⟩
  · intro ts
    exact record429Many_backoff ts mkRateLimiter (by norm_num [mkRateLimiter])
  · intro ts h4
    rw [record429Many_backoff ts mkRateLimiter (by norm_num [mkRateLimiter])]
    have h16 : (16 : ℚ) ≤ 2 ^ ts.length := by
      calc (16 : ℚ) = 2 ^ 4 := by norm_num
      _ ≤ 2 ^ ts.length := by
          apply pow_le_pow_right₀ (by norm_num) h4
    have : (60 : ℚ) ≤ 5 * 2 ^ ts.length := by linarith
    exact min_eq_right this
  · intro st now t hlast ht hlt
    have htr : pyTruthyOptQ st.last429Time = true := by
      rw [hlast]; simp [pyTruthyOptQ]; exact ne_of_gt ht
    have hcond : (pyTruthyOptQ st.last429Time &&
        decide (now - st.last429Time.getD 0 < st.backoffTime)) = true := by
      rw [htr, hlast]
      simp only [Option.getD_some, Bool.true_and, decide_eq_true_eq]
      exact hlt
    have hval : wait_time st now = st.backoffTime - (now - t) := by
      unfold wait_time
      rw [hcond]
      simp [hlast]
    refine ⟨hval, ?_⟩
    rw [hval]; linarith

/-- Witness for `rateLimiter_backoff_spec`: after three 429s (at times 1, 2, 3)
the backoff is 40; a fourth and fifth leave it at 60; and at `now = 10` with a
429 recorded at time 8 and backoff 40, the remaining wait is 38 > 0. -/
theorem rateLimiter_backoff_spec_witness :
    (record429Many [1, 2, 3] mkRateLimiter).backoffTime = min (5 * 2 ^ 3) 60 ∧
    (record429Many [1, 2, 3, 4, 5] mkRateLimiter).backoffTime = 60 ∧
    (wait_time { mkRateLimiter with last429Time := some 8, backoffTime := 40 } 10 = 40 - (10 - 8) ∧
      0 < wait_time { mkRateLimiter with last429Time := some 8, backoffTime := 40 } 10) := by
  refine ⟨rateLimiter_backoff_spec.2.1 [1, 2, 3], ?_, ?_⟩
  · exact rateLimiter_backoff_spec.2.2.1 [1, 2, 3, 4, 5] (by norm_num)
  · exact rateLimiter_backoff_spec.2.2.2
      { mkRateLimiter with last429Time := some 8, backoffTime := 40 } 10 8 rfl
      (by norm_num) (by norm_num)

/- ------------------------------------------------------------------ -/
/- server/tools/flight_search.py and hotel_search.py (claim C8)        -/
/- ------------------------------------------------------------------ -/

/-- Python `l.split(sep, 1)` helper: locate the first occurrence of `sep`,
returning the characters before and after it. -/
def splitFirst (sep : Char) : List Char → Option (List Char × List Char)
  | [] => none
  | c :: cs =>
    if c = sep then some ([], cs)
    else
      match splitFirst sep cs with
      | none => none
      | some (a, b) => some (c :: a, b)

/-- Python `param.split(sep, 1)`: a one-element list when `sep` does not occur,
otherwise the parts before and after the first occurrence. -/
def pySplit1 (sep : Char) (l : List Char) : List (List Char) :=
  match splitFirst sep l with
  | none => [l]
  | some (a, b) => [a, b]

/-- Python in-place `dict` assignment `d[k] = v`: replace the value at an
existing key, else append the new binding. -/
def pyDictInsert : List (String × String) → String → String → List (String × String)
  | [], k, v => [(k, v)]
  | (k1, v1) :: t, k, v =>
    if k1 = k then (k1, v) :: t else (k1, v1) :: pyDictInsert t k v

/-- Python `dict(iterable)`: raises unless every element is a 2-element
sequence; later duplicate keys overwrite earlier ones. -/
def pyDictOfPairs : List (String × String) → List (List (List Char)) →
    Except String (List (String × String))
  | d, [] => .ok d
  | d, [a, b] :: rest => pyDictOfPairs (pyDictInsert d ⟨a⟩ ⟨b⟩) rest
  | _, _ => .error "ValueError: dictionary update sequence element is not length 2"

/-- Python `d.get(k)` / first-match association lookup on the dict model. -/
def dictFind (d : List (String × String)) (k : String) : Option String :=
  (d.find? fun p => decide (p.1 = k)).map (·.2)

/-- `flight_search` (server/tools/flight_search.py), parameter parse:
`dict(param.split("=", 1) for param in input_str.split("&") if "=" in param)`. -/
def flight_search_params (s : String) : Except String (List (String × String)) :=
  pyDictOfPairs [] (((s.data.splitOn '&').filter fun seg => seg.contains '=').map (pySplit1 '='))

/-- `hotel_search` (server/tools/hotel_search.py), parameter parse:
`dict(p.split("=", 1) for p in input_str.split("&") if "=" in p)`. -/
def hotel_search_params (s : String) : Except String (List (String × String)) :=
  pyDictOfPairs [] (((s.data.splitOn '&').filter fun seg => seg.contains '=').map (pySplit1 '='))

/-- The parse as the spec describes it: split on `'&'`, silently drop segments
without `'='`, and split each remaining segment at its first `'='`. -/
def specParsePairs (s : String) : List (String × String) :=
  (s.data.splitOn '&').filterMap fun seg =>
    match splitFirst '=' seg with
    | none => none
    | some (k, v) => some (⟨k⟩, ⟨v⟩)

/-- The spec-described lookup: the value of the latest pair with the given key
(a later duplicate key overwrites an earlier one). -/
def specLookup (s : String) (k : String) : Option String :=
  ((specParsePairs s).reverse.find? fun p => decide (p.1 = k)).map (·.2)

lemma splitFirst_spec (sep : Char) :
    ∀ (l a b : List Char), splitFirst sep l = some (a, b) →
      l = a ++ sep :: b ∧ sep ∉ a := by
  intro l
  induction l with
  | nil => intro a b h; simp [splitFirst] at h
  | cons c cs ih =>
    intro a b h
    by_cases hc : c = sep
    · simp [splitFirst, hc] at h
      obtain ⟨ha, hb⟩ := h
      subst ha; subst hb; subst hc
      simp
    · simp only [splitFirst, if_neg hc] at h
      cases hsf : splitFirst sep cs with
      | none => rw [hsf] at h; simp at h
      | some p =>
        rw [hsf] at h
        simp at h
        obtain ⟨ha, hb⟩ := h
        obtain ⟨h1, h2⟩ := ih p.1 p.2 (by rw [hsf])
        subst hb
        constructor
        · rw [← ha]; simp [h1]
        · rw [← ha]
          intro hmem
          rcases List.mem_cons.mp hmem with h | h
          · exact hc h.symm
          · exact h2 h

lemma splitFirst_isSome_of_contains (sep : Char) :
    ∀ l : List Char, l.contains sep = true → (splitFirst sep l).isSome := by
  intro l
  induction l with
  | nil => intro h; simp at h
  | cons c cs ih =>
    intro h
    by_cases hc : c = sep
    · simp [splitFirst, hc]
    · have : cs.contains sep = true := by
        simp only [List.contains_cons] at h
        rcases Bool.or_eq_true_iff.mp h with h1 | h1
        · exact absurd (eq_comm.mp (beq_iff_eq.mp h1)) hc
        · exact h1
      have h2 := ih this
      simp only [splitFirst, if_neg hc]
      cases hsf : splitFirst sep cs with
      | none => rw [hsf] at h2; simp at h2
      | some p => simp

lemma contains_of_splitFirst_isSome (sep : Char) :
    ∀ l : List Char, (splitFirst sep l).isSome → l.contains sep = true := by
  intro l
  induction l with
  | nil => intro h; simp [splitFirst] at h
  | cons c cs ih =>
    intro h
    by_cases hc : c = sep
    · simp [List.contains_cons, hc]
    · simp only [splitFirst, if_neg hc] at h
      cases hsf : splitFirst sep cs with
      | none => rw [hsf] at h; simp at h
      | some p =>
        have := ih (by rw [hsf]; simp)
        have h3 : sep ∈ cs := by simpa using this
        simp [List.contains_cons, h3]

lemma sourcePairs_eq_specPairs (segs : List (List Char)) :
    ((segs.filter fun seg => seg.contains '=').map (pySplit1 '=')) =
      ((segs.filterMap fun seg =>
          match splitFirst '=' seg with
          | none => none
          | some (k, v) => some ((⟨k⟩ : String), (⟨v⟩ : String))).map
        fun p => [p.1.data, p.2.data]) := by
  induction segs with
  | nil => rfl
  | cons seg rest ih =>
    by_cases hc : seg.contains '=' = true
    · have hs := splitFirst_isSome_of_contains '=' seg hc
      cases hsf : splitFirst '=' seg with
      | none => rw [hsf] at hs; simp at hs
      | some p =>
        simp only [List.filter_cons, hc, if_pos, List.map_cons, List.filterMap_cons, hsf, ih]
        simp [pySplit1, hsf]
    · have hnone : splitFirst '=' seg = none := by
        cases hsf : splitFirst '=' seg with
        | none => rfl
        | some p =>
          exact absurd (contains_of_splitFirst_isSome '=' seg (by rw [hsf]; simp)) hc
      simp only [List.filter_cons, List.filterMap_cons, hnone]
      have hmem : ¬ ('=' ∈ seg) := by simpa using hc
      simpa [hmem] using ih

lemma pyDictOfPairs_map_ok (ps : List (String × String)) :
    ∀ d0, pyDictOfPairs d0 (ps.map fun p => [p.1.data, p.2.data]) =
      .ok (ps.foldl (fun d p => pyDictInsert d p.1 p.2) d0) := by
  induction ps with
  | nil => intro d0; rfl
  | cons p rest ih =>
    intro d0
    simp only [List.map_cons, List.foldl_cons]
    have := ih (pyDictInsert d0 p.1 p.2)
    rw [← this]
    rfl

lemma dictFind_pyDictInsert (d : List (String × String)) (k v k1 : String) :
    dictFind (pyDictInsert d k v) k1 = if k = k1 then some v else dictFind d k1 := by
  induction d with
  | nil =>
    by_cases h : k = k1 <;> simp [pyDictInsert, dictFind, List.find?, h]
  | cons q rest ih =>
    by_cases hq : q.1 = k
    · simp only [pyDictInsert]
      rw [if_pos hq]
      by_cases h : k = k1
      · subst h
        simp [dictFind, List.find?, hq]
      · have hq1 : ¬ (q.1 = k1) := by rw [hq]; exact h
        simp [dictFind, List.find?, hq1, h]
    · simp only [pyDictInsert]
      rw [if_neg hq]
      by_cases hq1 : q.1 = k1
      · have hk : ¬ (k = k1) := by intro he; exact hq (he ▸ hq1)
        simp [dictFind, List.find?, hq1, hk]
      · simp only [dictFind, List.find?, decide_eq_true_eq, hq1, if_neg]
        simp only [decide_eq_false hq1, dictFind] at *
        exact ih

lemma dictFind_foldl (ps : List (String × String)) :
    ∀ (d0 : List (String × String)) (k : String),
      dictFind (ps.foldl (fun d p => pyDictInsert d p.1 p.2) d0) k =
        match ps.reverse.find? fun p => decide (p.1 = k) with
        | some p => some p.2
        | none => dictFind d0 k := by
  induction ps with
  | nil => intro d0 k; rfl
  | cons p rest ih =>
    intro d0 k
    simp only [List.foldl_cons, List.reverse_cons]
    rw [ih]
    rw [List.find?_append]
    cases hr : rest.reverse.find? fun q => decide (q.1 = k) with
    | some q => simp
    | none =>
      simp only [Option.none_or]
      by_cases h : p.1 = k
      · simp [List.find?, h, dictFind_pyDictInsert, h]
      · simp [List.find?, h, dictFind_pyDictInsert]

/-- C8: both mini-agent tools parse their input string by splitting on `'&'`,
keeping exactly the segments that contain `'='` and splitting each at its first
`'='` (so values may contain `'='` and no character is percent-decoded); a
later duplicate key overwrites an earlier one; the parse never raises. -/
theorem miniagent_parse_spec (s : String) :
    (∃ d, flight_search_params s = .ok d ∧ ∀ k, dictFind d k = specLookup s k) ∧
    (∀ s1, hotel_search_params s1 = flight_search_params s1) ∧
    (∀ seg ∈ s.data.splitOn '&', ∀ k v, splitFirst '=' seg = some (k, v) →
      seg = k ++ '=' :: v ∧ '=' ∉ k) := by
  refine ⟨?_, fun s1 => rfl, ?_⟩
  · have hsrc := sourcePairs_eq_specPairs (s.data.splitOn '&')
    refine ⟨specParsePairs s |>.foldl (fun d p => pyDictInsert d p.1 p.2) [], ?_, ?_⟩
    · rw [flight_search_params, hsrc]
      have := pyDictOfPairs_map_ok (specParsePairs s) []
      rw [← this]
      rfl
    · intro k
      rw [dictFind_foldl]
      rw [specLookup]
      cases (specParsePairs s).reverse.find? fun p => decide (p.1 = k) with
      | some p => rfl
      | none => rfl
  · intro seg _ k v h
    exact splitFirst_spec '=' seg k v h

/-- Witness for `miniagent_parse_spec` at
`"from=NYC&to=PAR&junk&note=a=b&from=BOS"`: the parse succeeds, the duplicate
key `from` resolves to the later value `BOS`, the `junk` segment is dropped
(`note` has value `a=b`, keeping its inner `'='`), and the segment
`note=a=b` splits at its first `'='` with the segment reconstructed verbatim. -/
theorem miniagent_parse_spec_witness :
    (∃ d, flight_search_params "from=NYC&to=PAR&junk&note=a=b&from=BOS" = .ok d ∧
      ∀ k, dictFind d k = specLookup "from=NYC&to=PAR&junk&note=a=b&from=BOS" k) ∧
    ("note=a=b".data = "note".data ++ '=' :: "a=b".data ∧ '=' ∉ "note".data) ∧
    specLookup "from=NYC&to=PAR&junk&note=a=b&from=BOS" "from" = some "BOS" ∧
    specLookup "from=NYC&to=PAR&junk&note=a=b&from=BOS" "note" = some "a=b" := by
  refine ⟨(miniagent_parse_spec "from=NYC&to=PAR&junk&note=a=b&from=BOS").1, ?_, by decide, by decide⟩
  exact (miniagent_parse_spec "from=NYC&to=PAR&junk&note=a=b&from=BOS").2.2
    "note=a=b".data (by decide) "note".data "a=b".data (by decide)

/- ------------------------------------------------------------------ -/
/- JSON-like Python values                                             -/
/- ------------------------------------------------------------------ -/

/-- Python/JSON values as they flow through the services.  Numbers are
restricted to the integers actually used by the embedded code paths. -/
inductive Js where
  | null
  | bool (b : Bool)
  | num (n : Int)
  | str (s : String)
  | arr (items : List Js)
  | obj (fields : List (String × Js))

/-- First-match association lookup inside a Python dict. -/
def jsLookup : List (String × Js) → String → Option Js
  | [], _ => none
  | (k1, v) :: t, k => if k1 = k then some v else jsLookup t k

/-- `j.get(k, default)`: raises `AttributeError` when `j` is not a dict. -/
def pyGetD (j : Js) (k : String) (d : Js) : Except String Js :=
  match j with
  | .obj kvs => .ok ((jsLookup kvs k).getD d)
  | _ => .error "AttributeError"

/-- `j.get(k)` (default `None` reported as `none`); raises on non-dicts. -/
def pyGetOpt (j : Js) (k : String) : Except String (Option Js) :=
  match j with
  | .obj kvs => .ok (jsLookup kvs k)
  | _ => .error "AttributeError"

/-- Lookup on a value known to be a dict (`none` on non-dicts). -/
def jsObjLookup (j : Js) (k : String) : Option Js :=
  match j with
  | .obj kvs => jsLookup kvs k
  | _ => none

/-- Python truthiness of a value. -/
def pyFalsy : Js → Bool
  | .null => true
  | .bool b => !b
  | .num n => decide (n = 0)
  | .str s => decide (s = "")
  | .arr l => l.isEmpty
  | .obj l => l.isEmpty

/-- Python truthiness of `d.get(k)`: a missing key (`None`) is falsy. -/
def pyFalsyOpt : Option Js → Bool
  | none => true
  | some j => pyFalsy j

/-- Python `==` between an arbitrary value and a string literal. -/
def jsEqStr (j : Js) (s : String) : Bool :=
  match j with
  | .str t => decide (t = s)
  | _ => false

/-- Python `==` between `d.get(k)` (possibly `None`) and a string literal. -/
def jsOptEqStr (o : Option Js) (s : String) : Bool :=
  match o with
  | none => false
  | some j => jsEqStr j s

/-- Python `str(...)` as used in f-strings.  `str`/`int`/`bool`/`None`
render exactly; container rendering is abbreviated (no claim inspects it). -/
def pyStr : Js → String
  | .null => "None"
  | .bool true => "True"
  | .bool false => "False"
  | .num n => toString n
  | .str s => s
  | .arr _ => "<list>"
  | .obj _ => "<dict>"

/-- `str(d.get(k))` where a missing key prints as `None`. -/
def pyStrOpt : Option Js → String
  | none => "None"
  | some j => pyStr j

/-- The one-key dictionary `{"error": msg}`. -/
def errObj (msg : String) : Js := .obj [("error", .str msg)]

/-- The one-key dictionary `{"result": v}`. -/
def resultObj (v : Js) : Js := .obj [("result", v)]

/- ------------------------------------------------------------------ -/
/- weather-mcp/simplified_mcp_server.py (claims C6, C7)                -/
/- ------------------------------------------------------------------ -/

/-- External effects of `SimplifiedMCP`.  `upstream loc` is the parsed
OpenWeatherMap JSON for a location, or `none` when any step of the
`get_coordinates`/weather request raised.  `reportText` abstracts
`get_weather_report`'s prose (it does float parsing and never raises:
every path returns a string; no claim inspects the text). -/
structure WeatherEnv where
  upstream : Js → Option Js
  reportText : Js → String

/-- The fixed simulated payload `get_weather_data` returns on error. -/
def simulatedWeather (location : Js) : Js :=
  .obj [("location", location),
        ("temperature", .str "22°C"),
        ("feels_like", .str "24°C"),
        ("weather_condition", .str "clear sky"),
        ("humidity", .str "65%"),
        ("wind_speed", .str "3.5 m/s"),
        ("wind_direction", .str "180 degrees")]

/-- The field extraction inside `get_weather_data`'s `try` block:
`main = data.get('main', {})`, `weather = data.get('weather', [{}])[0]`,
`wind = data.get('wind', {})`, then the formatted result dict.  Any
shape violation (non-dict, empty `weather` list, ...) raises, which the
caller turns into the simulated payload. -/
def extractWeatherFields (location data : Js) : Except String Js := do
  let main ← pyGetD data "main" (.obj [])
  let weatherList ← pyGetD data "weather" (.arr [.obj []])
  let weather ← match weatherList with
    | .arr (x :: _) => Except.ok x
    | .arr [] => Except.error "IndexError"
    | _ => Except.error "TypeError"
  let wind ← pyGetD data "wind" (.obj [])
  let temp ← pyGetD main "temp" (.num 0)
  let feels ← pyGetD main "feels_like" (.num 0)
  let desc ← pyGetD weather "description" (.str "Unknown")
  let hum ← pyGetD main "humidity" (.num 0)
  let spd ← pyGetD wind "speed" (.num 0)
  let deg ← pyGetD wind "deg" (.num 0)
  pure (.obj [("location", location),
              ("temperature", .str (pyStr temp ++ "°C")),
              ("feels_like", .str (pyStr feels ++ "°C")),
              ("weather_condition", desc),
              ("humidity", .str (pyStr hum ++ "%")),
              ("wind_speed", .str (pyStr spd ++ " m/s")),
              ("wind_direction", .str (pyStr deg ++ " degrees"))])

/-- `SimplifiedMCP.get_weather_data`: on any upstream or extraction failure
the simulated payload is returned instead of propagating the error. -/
def get_weather_data (env : WeatherEnv) (location : Js) : Js :=
  match env.upstream location with
  | none => simulatedWeather location
  | some data =>
    match extractWeatherFields location data with
    | .ok wd => wd
    | .error _ => simulatedWeather location

/-- `SimplifiedMCP.get_current_weather` (and `get_weather`, which just
delegates): `{"report": get_weather_report(get_weather_data(location))}`. -/
def get_current_weather (env : WeatherEnv) (location : Js) : Js :=
  resultObjBody
where
  resultObjBody : Js := .obj [("report", .str (env.reportText (get_weather_data env location)))]

/-- The shared body of the `get_current_weather`/`get_weather` tool branches of
`SimplifiedMCP.handle_request`: read `location`, `api_key`, `timezone_offset`
(raising if `parameters` is not a dict), reject a falsy `location`, else
invoke the weather lookup. -/
def handleWeatherTool (env : WeatherEnv) (parameters : Js) : Except String Js :=
  match pyGetOpt parameters "location" with
  | .error e => .error e
  | .ok loc? =>
    match pyGetOpt parameters "api_key" with
    | .error e => .error e
    | .ok _ =>
      match pyGetD parameters "timezone_offset" (.num 0) with
      | .error e => .error e
      | .ok _ =>
        if pyFalsyOpt loc? then .ok (errObj "Location parameter is required")
        else .ok (resultObj (get_current_weather env (loc?.getD .null)))

/-- The `try` body of `SimplifiedMCP.handle_request`; `.error` is an
uncaught Python exception, converted by the handler's `except` clause. -/
def handle_request_core (env : WeatherEnv) (req : Js) : Except String Js :=
  match req with
  | .obj kvs =>
    if jsOptEqStr (jsLookup kvs "method") "invoke" then
      let params := (jsLookup kvs "params").getD (.obj [])
      match pyGetOpt params "name" with
      | .error e => .error e
      | .ok toolName? =>
        match pyGetD params "parameters" (.obj []) with
        | .error e => .error e
        | .ok parameters =>
          if jsOptEqStr toolName? "get_current_weather" then
            handleWeatherTool env parameters
          else if jsOptEqStr toolName? "get_weather" then
            handleWeatherTool env parameters
          else
            .ok (errObj ("Unknown tool: " ++ pyStrOpt toolName?))
    else .ok (errObj "Unknown method")
  | _ => .ok (errObj "Invalid request format")

/-- `SimplifiedMCP.handle_request`: the `try` body with the broad
`except Exception` clause that converts any exception into `{"error": str(e)}`. -/
def handle_request (env : WeatherEnv) (req : Js) : Js :=
  match handle_request_core env req with
  | .ok j => j
  | .error e => errObj e

/-- A dictionary with exactly one key, which is `result` or `error`. -/
def isSingleResultOrError (j : Js) : Prop :=
  (∃ v, j = resultObj v) ∨ (∃ m, j = .obj [("error", m)])

lemma handle_request_core_obj (env : WeatherEnv) (kvs : List (String × Js)) :
    handle_request_core env (.obj kvs) =
      if jsOptEqStr (jsLookup kvs "method") "invoke" then
        match pyGetOpt ((jsLookup kvs "params").getD (.obj [])) "name" with
        | .error e => .error e
        | .ok toolName? =>
          match pyGetD ((jsLookup kvs "params").getD (.obj [])) "parameters" (.obj []) with
          | .error e => .error e
          | .ok parameters =>
            if jsOptEqStr toolName? "get_current_weather" then
              handleWeatherTool env parameters
            else if jsOptEqStr toolName? "get_weather" then
              handleWeatherTool env parameters
            else
              .ok (errObj ("Unknown tool: " ++ pyStrOpt toolName?))
      else .ok (errObj "Unknown method") := rfl

lemma handleWeatherTool_shape (env : WeatherEnv) (parameters : Js) :
    ∀ j, handleWeatherTool env parameters = .ok j → isSingleResultOrError j := by
  intro j h
  unfold handleWeatherTool at h
  cases parameters with
  | obj pvs =>
    simp only [pyGetOpt, pyGetD] at h
    by_cases hf : pyFalsyOpt (jsLookup pvs "location") = true
    · rw [if_pos hf] at h
      cases h
      exact Or.inr ⟨_, rfl⟩
    · rw [if_neg hf] at h
      cases h
      exact Or.inl ⟨_, rfl⟩
  | null => simp [pyGetOpt] at h
  | bool b => simp [pyGetOpt] at h
  | num n => simp [pyGetOpt] at h
  | str s => simp [pyGetOpt] at h
  | arr l => simp [pyGetOpt] at h

/-- C6: `handle_request` never raises and always returns a dictionary with
exactly one of the keys `result`/`error`; non-dict requests give
`Invalid request format`, a method other than `invoke` gives `Unknown method`,
a missing/falsy `location` for the two weather tools gives
`Location parameter is required`, an unrecognized tool name gives an
`Unknown tool: ...` error, and internal exceptions become `{"error": str(e)}`. -/
theorem handle_request_spec (env : WeatherEnv) (req : Js) :
    isSingleResultOrError (handle_request env req) ∧
    ((∀ kvs, req ≠ .obj kvs) → handle_request env req = errObj "Invalid request format") ∧
    (∀ kvs, req = .obj kvs → jsOptEqStr (jsLookup kvs "method") "invoke" = false →
      handle_request env req = errObj "Unknown method") ∧
    (∀ kvs pvs ps, req = .obj kvs →
      jsOptEqStr (jsLookup kvs "method") "invoke" = true →
      (jsLookup kvs "params").getD (.obj []) = .obj pvs →
      (jsOptEqStr (jsLookup pvs "name") "get_current_weather" = true ∨
        jsOptEqStr (jsLookup pvs "name") "get_weather" = true) →
      (jsLookup pvs "parameters").getD (.obj []) = .obj ps →
      pyFalsyOpt (jsLookup ps "location") = true →
      handle_request env req = errObj "Location parameter is required") ∧
    (∀ kvs pvs, req = .obj kvs →
      jsOptEqStr (jsLookup kvs "method") "invoke" = true →
      (jsLookup kvs "params").getD (.obj []) = .obj pvs →
      jsOptEqStr (jsLookup pvs "name") "get_current_weather" = false →
      jsOptEqStr (jsLookup pvs "name") "get_weather" = false →
      handle_request env req =
        errObj ("Unknown tool: " ++ pyStrOpt (jsLookup pvs "name"))) := by
  refine ⟨?_, ?_, ?_, ?_, ?_⟩
  · unfold handle_request
    cases hc : handle_request_core env req with
    | error e => exact Or.inr ⟨_, rfl⟩
    | ok j =>
      cases req with
      | obj kvs =>
        rw [handle_request_core_obj] at hc
        by_cases hm : jsOptEqStr (jsLookup kvs "method") "invoke" = true
        · rw [if_pos hm] at hc
          cases hname : pyGetOpt ((jsLookup kvs "params").getD (.obj [])) "name" with
          | error e => rw [hname] at hc; cases hc
          | ok toolName? =>
            rw [hname] at hc
            cases hpar : pyGetD ((jsLookup kvs "params").getD (.obj [])) "parameters" (.obj []) with
            | error e => rw [hpar] at hc; cases hc
            | ok parameters =>
              rw [hpar] at hc
              dsimp only at hc
              by_cases h1 : jsOptEqStr toolName? "get_current_weather" = true
              · rw [if_pos h1] at hc
                exact handleWeatherTool_shape env parameters j hc
              · rw [if_neg h1] at hc
                by_cases h2 : jsOptEqStr toolName? "get_weather" = true
                · rw [if_pos h2] at hc
                  exact handleWeatherTool_shape env parameters j hc
                · rw [if_neg h2] at hc
                  cases hc
                  exact Or.inr ⟨_, rfl⟩
        · rw [if_neg hm] at hc
          cases hc
          exact Or.inr ⟨_, rfl⟩
      | null => cases hc; exact Or.inr ⟨_, rfl⟩
      | bool b => cases hc; exact Or.inr ⟨_, rfl⟩
      | num n => cases hc; exact Or.inr ⟨_, rfl⟩
      | str s => cases hc; exact Or.inr ⟨_, rfl⟩
      | arr l => cases hc; exact Or.inr ⟨_, rfl⟩
  · intro hnd
    cases req with
    | obj kvs => exact absurd rfl (hnd kvs)
    | null => rfl
    | bool b => rfl
    | num n => rfl
    | str s => rfl
    | arr l => rfl
  · intro kvs hreq hm
    subst hreq
    unfold handle_request
    rw [handle_request_core_obj, if_neg (by rw [hm]; exact Bool.false_ne_true)]
  · intro kvs pvs ps hreq hm hparams htool hps hloc
    subst hreq
    unfold handle_request
    rw [handle_request_core_obj, if_pos hm, hparams]
    simp only [pyGetOpt, pyGetD]
    have hw : handleWeatherTool env ((jsLookup pvs "parameters").getD (.obj [])) =
        .ok (errObj "Location parameter is required") := by
      unfold handleWeatherTool
      rw [hps]
      simp only [pyGetOpt, pyGetD]
      rw [if_pos hloc]
    rcases htool with h1 | h1
    · rw [if_pos h1, hw]
    · by_cases h0 : jsOptEqStr (jsLookup pvs "name") "get_current_weather" = true
      · rw [if_pos h0, hw]
      · rw [if_neg h0, if_pos h1, hw]
  · intro kvs pvs hreq hm hparams h1 h2
    subst hreq
    unfold handle_request
    rw [handle_request_core_obj, if_pos hm, hparams]
    simp only [pyGetOpt, pyGetD]
    rw [if_neg (by rw [h1]; exact Bool.false_ne_true),
        if_neg (by rw [h2]; exact Bool.false_ne_true)]

/-- Witness for `handle_request_spec` at concrete requests: a bare string
request, a request with method `ping`, an `invoke` of `get_weather` without a
`location`, and an `invoke` of an unknown tool `foo`. -/
theorem handle_request_spec_witness :
    handle_request ⟨fun _ => none, fun _ => "r"⟩ (.str "hi") =
      errObj "Invalid request format" ∧
    handle_request ⟨fun _ => none, fun _ => "r"⟩ (.obj [("method", .str "ping")]) =
      errObj "Unknown method" ∧
    handle_request ⟨fun _ => none, fun _ => "r"⟩
        (.obj [("method", .str "invoke"),
               ("params", .obj [("name", .str "get_weather"), ("parameters", .obj [])])]) =
      errObj "Location parameter is required" ∧
    handle_request ⟨fun _ => none, fun _ => "r"⟩
        (.obj [("method", .str "invoke"), ("params", .obj [("name", .str "foo")])]) =
      errObj "Unknown tool: foo" := by
  refine ⟨(handle_request_spec ⟨fun _ => none, fun _ => "r"⟩ (.str "hi")).2.1
      (fun kvs h => by cases h), ?_, ?_, ?_⟩
  · exact (handle_request_spec ⟨fun _ => none, fun _ => "r"⟩
      (.obj [("method", .str "ping")])).2.2.1 _ rfl rfl
  · exact (handle_request_spec ⟨fun _ => none, fun _ => "r"⟩
      (.obj [("method", .str "invoke"),
             ("params", .obj [("name", .str "get_weather"), ("parameters", .obj [])])])).2.2.2.1
      _ [("name", .str "get_weather"), ("parameters", .obj [])] [] rfl rfl rfl (Or.inr rfl) rfl rfl
  · exact (handle_request_spec ⟨fun _ => none, fun _ => "r"⟩
      (.obj [("method", .str "invoke"), ("params", .obj [("name", .str "foo")])])).2.2.2.2
      _ [("name", .str "foo")] rfl rfl rfl rfl rfl

/- ------------------------------------------------------------------ -/
/- server/tools/weather_tool.py, WeatherTool.call_mcp (claim C7)       -/
/- ------------------------------------------------------------------ -/

/-- Outcome of `WeatherTool._send_request` against one server URL:
a `requests.RequestException` (connection failure, timeout or
`raise_for_status`), some other exception (e.g. JSON decoding), or a
parsed JSON body. -/
inductive SendOutcome where
  | reqExn (msg : String)
  | otherExn (msg : String)
  | okBody (body : Js)

/-- The two URLs `call_mcp` tries, primary then localhost fallback. -/
structure McpEnv where
  primary : SendOutcome
  fallback : SendOutcome

/-- `WeatherTool.get_simulated_weather`. -/
def get_simulated_weather (loc : Js) : Js :=
  .obj [("report", .str ("In " ++ pyStr loc ++
    ", it's currently 22°C with clear skies. The humidity is around 65% with light winds. (This is simulated data as the weather service is unavailable.)"))]

/-- The tail of `_send_request` on a parsed body: an `error` key is
re-wrapped, else `response_data.get("result", {})` is returned.  On a
non-dict body the subsequent attribute access raises (propagating to
`call_mcp`'s outer handler). -/
def processMcpBody (body : Js) : Except String Js :=
  match body with
  | .obj kvs =>
    match jsLookup kvs "error" with
    | some e => .ok (.obj [("error", e)])
    | none => .ok ((jsLookup kvs "result").getD (.obj []))
  | _ => .error "AttributeError"

/-- `WeatherTool.call_mcp`: try the primary URL, on a `RequestException`
try the fallback, and if that also fails with a `RequestException` return
simulated weather for the two weather tools (an error dict otherwise);
any other exception is caught by the outer handler. -/
def call_mcp (env : McpEnv) (toolName : String) (parameters : Js) : Js :=
  let inner : Except String Js :=
    match env.primary with
    | .okBody body => processMcpBody body
    | .otherExn e => .error e
    | .reqExn _ =>
      match env.fallback with
      | .okBody body => processMcpBody body
      | .otherExn e => .error e
      | .reqExn e2 =>
        if toolName = "get_weather" ∨ toolName = "get_current_weather" then
          match pyGetD parameters "location" (.str "Unknown location") with
          | .ok loc => .ok (get_simulated_weather loc)
          | .error e => .error e
        else
          .ok (errObj ("Failed to connect to MCP server: " ++ e2))
  match inner with
  | .ok j => j
  | .error e => errObj ("Error calling MCP: " ++ e)

/-- C7: when live weather fails the system falls back to simulated data.
If the upstream OpenWeatherMap request raises, `get_weather_data` returns the
fixed simulated payload (22°C, clear sky, 65%, ...) for the requested
location; and if `call_mcp` gets a `RequestException` from both the primary
and the fallback URL for `get_weather`/`get_current_weather`, it returns
simulated weather instead of raising. -/
theorem weather_simulated_fallback_spec :
    (∀ (env : WeatherEnv) (loc : Js), env.upstream loc = none →
      get_weather_data env loc = simulatedWeather loc) ∧
    (∀ loc : Js,
      jsObjLookup (simulatedWeather loc) "temperature" = some (.str "22°C") ∧
      jsObjLookup (simulatedWeather loc) "weather_condition" = some (.str "clear sky") ∧
      jsObjLookup (simulatedWeather loc) "humidity" = some (.str "65%") ∧
      jsObjLookup (simulatedWeather loc) "location" = some loc) ∧
    (∀ (menv : McpEnv) (pvs : List (String × Js)) (tool : String) (e1 e2 : String),
      menv.primary = .reqExn e1 → menv.fallback = .reqExn e2 →
      (tool = "get_weather" ∨ tool = "get_current_weather") →
      call_mcp menv tool (.obj pvs) =
        get_simulated_weather ((jsLookup pvs "location").getD (.str "Unknown location"))) := by
  refine ⟨?_, ?_, ?_⟩
  · intro env loc h
    unfold get_weather_data
    rw [h]
  · intro loc
    refine ⟨rfl, rfl, rfl, rfl⟩
  · intro menv pvs tool e1 e2 h1 h2 htool
    unfold call_mcp
    rw [h1, h2]
    dsimp only
    rw [if_pos htool]
    rfl

/-- Witness for `weather_simulated_fallback_spec`: with an always-failing
upstream, the weather for `London` is the simulated payload; and with both
MCP URLs unreachable, `call_mcp` for `get_current_weather` returns the
simulated report for `Paris`. -/
theorem weather_simulated_fallback_spec_witness :
    get_weather_data ⟨fun _ => none, fun _ => "r"⟩ (.str "London") =
      simulatedWeather (.str "London") ∧
    call_mcp ⟨.reqExn "conn", .reqExn "conn"⟩ "get_current_weather"
        (.obj [("location", .str "Paris"), ("api_key", .str "k")]) =
      get_simulated_weather (.str "Paris") := by
  constructor
  · exact weather_simulated_fallback_spec.1 ⟨fun _ => none, fun _ => "r"⟩ (.str "London") rfl
  · exact weather_simulated_fallback_spec.2.2 ⟨.reqExn "conn", .reqExn "conn"⟩
      [("location", .str "Paris"), ("api_key", .str "k")] "get_current_weather"
      "conn" "conn" rfl rfl (Or.inr rfl)

/- ------------------------------------------------------------------ -/
/- server/tools/amadeus_api.py and amadeus_hotels_api.py (C5, C9)      -/
/- ------------------------------------------------------------------ -/

/-- Python `int(s)` on a string: optional surrounding whitespace, optional
sign, then decimal digits; anything else raises `ValueError`. -/
def pyIntOfString (s : String) : Except String Int :=
  let t := pyStrip s
  let signed : Int × List Char :=
    match t.data with
    | '+' :: rest => (1, rest)
    | '-' :: rest => (-1, rest)
    | l => (1, l)
  if signed.2 ≠ [] ∧ signed.2.all Char.isDigit then
    .ok (signed.1 * (signed.2.foldl (fun acc c => acc * 10 + (c.toNat - 48)) 0 : Nat))
  else
    .error ("invalid literal for int() with base 10: " ++ s)

/-- Lookup in a string-valued Python dict (the parsed query parameters). -/
def paramsGet (params : List (String × String)) (k : String) : Option String :=
  (params.find? fun p => decide (p.1 = k)).map (·.2)

/-- External calls the Amadeus clients can make. -/
inductive AmadeusEffect where
  | tokenFetch
  | iataHttp (city : String)
  | flightPost (body : Js)
  | hotelGet (cityCode : String)

/-- Outcome of the OAuth token POST. -/
inductive TokenHttpOutcome where
  | okTok (token : String)
  | status429
  | raised (msg : String)

/-- Outcome of the `reference-data/locations` lookup: a code found in
`data[0]["iataCode"]`, a 2xx response without one (every shape problem is
caught and falls back to `city[:3].upper()`), a 429, or an exception. -/
inductive IataHttpOutcome where
  | okCode (code : String)
  | okNoCode
  | status429
  | raised (msg : String)

/-- Outcome of a search request (`flight-offers` POST / `hotels/by-city` GET):
a parsed 2xx body, a 429, a `raise_for_status` error, or an exception. -/
inductive PostOutcome where
  | okResp (body : Js)
  | status429
  | httpErr (msg : String)
  | raised (msg : String)

/-- External state for the Amadeus clients: HTTP outcomes, the cached
token-function attribute `last_valid_token`, the module-level
`IATA_CODE_CACHE`/`CITY_CODE_CACHE` (read-only within one call), and the
date oracles used by `fix_date` (`strptime` success and `datetime.now`). -/
structure AmadeusEnv where
  tokenHttp : TokenHttpOutcome
  cachedToken : Option String
  iataCache : String → Option String
  iataHttp : String → IataHttpOutcome
  flightHttp : PostOutcome
  hotelHttp : PostOutcome
  parseMDY : String → Option String
  today : String

/-- `get_amadeus_access_token` (both files have the same definition): on a
429 or any exception it falls back to the cached token if one exists,
otherwise the exception propagates. -/
def get_amadeus_access_token (env : AmadeusEnv) :
    Except String String × List AmadeusEffect :=
  match env.tokenHttp with
  | .okTok t => (.ok t, [.tokenFetch])
  | .status429 =>
    (match env.cachedToken with
     | some t => .ok t
     | none => .error "Rate limited and no cached token available", [.tokenFetch])
  | .raised e =>
    (match env.cachedToken with
     | some t => .ok t
     | none => .error e, [.tokenFetch])

/-- The hardcoded `common_cities` map (identical in both files). -/
def common_cities : List (String × String) :=
  [("new york", "NYC"), ("los angeles", "LAX"), ("chicago", "CHI"),
   ("london", "LON"), ("paris", "PAR"), ("tokyo", "TYO"), ("beijing", "BJS"),
   ("sydney", "SYD"), ("san francisco", "SFO"), ("washington", "WAS"),
   ("boston", "BOS"), ("miami", "MIA"), ("seattle", "SEA"), ("dallas", "DFW"),
   ("toronto", "YTO"), ("frankfurt", "FRA"), ("rome", "ROM"),
   ("madrid", "MAD"), ("berlin", "BER"), ("amsterdam", "AMS")]

/-- `get_iata_code` (amadeus_api.py): cache, then `common_cities`, then the
locations API; every failure there returns the fallback `city[:3].upper()`
instead of raising. -/
def get_iata_code (env : AmadeusEnv) (city : String) :
    String × List AmadeusEffect :=
  let key := pyStrip (pyLower city)
  match env.iataCache key with
  | some c => (c, [])
  | none =>
    match paramsGet common_cities key with
    | some c => (c, [])
    | none =>
      let fallback := pyUpper (pyTake 3 city)
      match env.iataHttp city with
      | .okCode c => (c, [.iataHttp city])
      | .okNoCode => (fallback, [.iataHttp city])
      | .status429 => (fallback, [.iataHttp city])
      | .raised _ => (fallback, [.iataHttp city])

/-- `get_city_code` (amadeus_hotels_api.py): same structure as
`get_iata_code` (cache, `common_cities`, API with `city[:3].upper()`
fallback on 429 or any exception, including `["data"][0]` shape errors). -/
def get_city_code (env : AmadeusEnv) (city : String) :
    String × List AmadeusEffect :=
  let key := pyStrip (pyLower city)
  match env.iataCache key with
  | some c => (c, [])
  | none =>
    match paramsGet common_cities key with
    | some c => (c, [])
    | none =>
      let fallback := pyUpper (pyTake 3 city)
      match env.iataHttp city with
      | .okCode c => (c, [.iataHttp city])
      | .okNoCode => (fallback, [.iataHttp city])
      | .status429 => (fallback, [.iataHttp city])
      | .raised _ => (fallback, [.iataHttp city])

/-- `fix_date` (amadeus_hotels_api.py): a string with `-` passes through,
else try `%m/%d/%Y` → `%Y-%m-%d`, else today's date; it never raises. -/
def fix_date (env : AmadeusEnv) (s : String) : String :=
  if s.contains '-' then s
  else
    match env.parseMDY s with
    | some d => d
    | none => env.today

/-- `d[k] = v` on a JSON dict model (replace or append). -/
def jsDictInsert : List (String × Js) → String → Js → List (String × Js)
  | [], k, v => [(k, v)]
  | (k1, v1) :: t, k, v =>
    if k1 = k then (k1, v) :: t else (k1, v1) :: jsDictInsert t k v

/-- The flight-offers request body built by `perform_flight_search_api`:
`returnDate = none` is the one-way case; `maxFlightOffers` is the
hard-coded `max_results = 5`. -/
def buildFlightBody (origin destination depDate : String)
    (returnDate : Option String) (adults : Int) : Js :=
  let od1 : Js := .obj [("id", .str "1"),
    ("originLocationCode", .str origin),
    ("destinationLocationCode", .str destination),
    ("departureDateTimeRange", .obj [("date", .str depDate)])]
  let ods : List Js :=
    match returnDate with
    | none => [od1]
    | some rd => [od1,
        .obj [("id", .str "2"),
          ("originLocationCode", .str destination),
          ("destinationLocationCode", .str origin),
          ("departureDateTimeRange", .obj [("date", .str rd)])]]
  let odIds : List Js :=
    match returnDate with
    | none => [.str "1"]
    | some _ => [.str "1", .str "2"]
  let travelers : List Js :=
    (List.range adults.toNat).map fun i =>
      .obj [("id", .str (toString (i + 1))), ("travelerType", .str "ADULT")]
  .obj [("currencyCode", .str "USD"),
        ("originDestinations", .arr ods),
        ("travelers", .arr travelers),
        ("sources", .arr [.str "GDS"]),
        ("searchCriteria", .obj
          [("maxFlightOffers", .num 5),
           ("flightFilters", .obj
             [("cabinRestrictions", .arr
               [.obj [("cabin", .str "ECONOMY"),
                      ("coverage", .str "MOST_SEGMENTS"),
                      ("originDestinationIds", .arr odIds)]])])])]

/-- `perform_flight_search_api`: required-key check, then inside one broad
`try` the token fetch, IATA resolution, `adults` parse, body construction
and POST; every failure after the check becomes a
`{"error": "Flight search failed: ..."}` dict. -/
def perform_flight_search_api (env : AmadeusEnv)
    (params : List (String × String)) :
    Except String Js × List AmadeusEffect :=
  let required := ["from", "to", "departureDate"]
  let missing := required.filter fun k => !(pyTruthyOptStr (paramsGet params k))
  if missing.isEmpty then
    match get_amadeus_access_token env with
    | (.error e, effs) => (.ok (errObj ("Flight search failed: " ++ e)), effs)
    | (.ok _token, effs) =>
      let originR := get_iata_code env ((paramsGet params "from").getD "")
      let destR := get_iata_code env ((paramsGet params "to").getD "")
      let adultsRes : Except String Int :=
        match paramsGet params "adults" with
        | none => .ok 1
        | some s => if s = "" then .ok 1 else pyIntOfString s
      match adultsRes with
      | .error e =>
        (.ok (errObj ("Flight search failed: " ++ e)), effs ++ originR.2 ++ destR.2)
      | .ok adults =>
        let retDate := paramsGet params "returnDate"
        let isOneWay := !(pyTruthyOptStr retDate)
        let body := buildFlightBody originR.1 destR.1
          ((paramsGet params "departureDate").getD "")
          (if isOneWay then none else retDate) adults
        let effs2 := effs ++ originR.2 ++ destR.2 ++ [.flightPost body]
        match env.flightHttp with
        | .status429 =>
          (.ok (errObj "Rate limit exceeded. Please try again shortly."), effs2)
        | .raised e => (.ok (errObj ("Flight search failed: " ++ e)), effs2)
        | .httpErr e => (.ok (errObj ("Flight search failed: " ++ e)), effs2)
        | .okResp j => (.ok (.obj [("flight", j)]), effs2)
  else
    (.ok (errObj ("Missing required parameter(s): " ++ String.intercalate ", " missing)), [])

/-- `perform_hotel_search_api`: required-key check, then — outside any
`try` — the token fetch, city-code resolution, `fix_date` calls and the
`int(params.get("adults", 1))` conversion; only the final HTTP request is
under a `try`.  An exception from the token fetch or the int conversion
therefore propagates (`.error`). -/
def perform_hotel_search_api (env : AmadeusEnv)
    (params : List (String × String)) :
    Except String Js × List AmadeusEffect :=
  let required := ["city", "checkInDate", "checkOutDate", "adults"]
  let missing := required.filter fun k => !(pyTruthyOptStr (paramsGet params k))
  if missing.isEmpty then
    match get_amadeus_access_token env with
    | (.error e, effs) => (.error e, effs)
    | (.ok _token, effs) =>
      let cityR := get_city_code env ((paramsGet params "city").getD "")
      let checkin := fix_date env ((paramsGet params "checkInDate").getD "")
      let checkout := fix_date env ((paramsGet params "checkOutDate").getD "")
      match pyIntOfString ((paramsGet params "adults").getD "") with
      | .error e => (.error e, effs ++ cityR.2)
      | .ok adults =>
        let effs2 := effs ++ cityR.2 ++ [.hotelGet cityR.1]
        match env.hotelHttp with
        | .status429 =>
          (.ok (errObj "Rate limit exceeded. Please retry shortly."), effs2)
        | .raised e => (.ok (errObj ("Hotel search failed: " ++ e)), effs2)
        | .httpErr e => (.ok (errObj ("Hotel search failed: " ++ e)), effs2)
        | .okResp j =>
          match j with
          | .obj kvs =>
            (.ok (.obj [("hotels", .obj (jsDictInsert kvs "request"
              (.obj [("checkInDate", .str checkin),
                     ("checkOutDate", .str checkout),
                     ("adults", .num adults)])))]), effs2)
          | _ => (.ok (errObj "Hotel search failed: TypeError"), effs2)
  else
    (.ok (errObj ("Missing required params: " ++ String.intercalate ", " missing)), [])

lemma buildFlightBody_maxOffers (o d dep : String) (rd : Option String) (ad : Int) :
    jsObjLookup ((jsObjLookup (buildFlightBody o d dep rd ad) "searchCriteria").getD .null)
      "maxFlightOffers" = some (.num 5) := by
  cases rd <;> rfl

lemma token_effects (env : AmadeusEnv) :
    (get_amadeus_access_token env).2 = [.tokenFetch] := by
  unfold get_amadeus_access_token
  cases env.tokenHttp <;> rfl

lemma flightPost_notin_iata (env : AmadeusEnv) (c : String) (body : Js) :
    AmadeusEffect.flightPost body ∉ (get_iata_code env c).2 := by
  unfold get_iata_code
  cases h1 : env.iataCache (pyStrip (pyLower c)) with
  | some x => simp [h1]
  | none =>
    cases h2 : paramsGet common_cities (pyStrip (pyLower c)) with
    | some x => simp [h1, h2]
    | none => cases h3 : env.iataHttp c <;> simp [h1, h2, h3]

/-- C9: the flight-offers request body always carries
`searchCriteria.maxFlightOffers = 5`: it holds of every body
`buildFlightBody` can produce, and of every body
`perform_flight_search_api` actually posts, whatever the caller-supplied
parameters were. -/
theorem flight_maxFlightOffers_spec :
    (∀ (o d dep : String) (rd : Option String) (ad : Int),
      jsObjLookup ((jsObjLookup (buildFlightBody o d dep rd ad) "searchCriteria").getD .null)
        "maxFlightOffers" = some (.num 5)) ∧
    (∀ (env : AmadeusEnv) (params : List (String × String)) (body : Js),
      AmadeusEffect.flightPost body ∈ (perform_flight_search_api env params).2 →
      jsObjLookup ((jsObjLookup body "searchCriteria").getD .null)
        "maxFlightOffers" = some (.num 5)) := by
  constructor
  · exact buildFlightBody_maxOffers
  · intro env params body hmem
    unfold perform_flight_search_api at hmem
    dsimp only at hmem
    by_cases hmiss :
        ((["from", "to", "departureDate"].filter
          fun k => !(pyTruthyOptStr (paramsGet params k))).isEmpty) = true
    · rw [if_pos hmiss] at hmem
      rcases htok : get_amadeus_access_token env with ⟨tokR, tokE⟩
      have htokE : tokE = [.tokenFetch] := by
        have := token_effects env
        rw [htok] at this
        exact this
      rw [htok] at hmem
      cases tokR with
      | error e =>
        dsimp only at hmem
        rw [htokE] at hmem
        simp at hmem
      | ok t =>
        dsimp only at hmem
        cases had : (match paramsGet params "adults" with
          | none => Except.ok (1 : Int)
          | some s => if s = "" then Except.ok 1 else pyIntOfString s) with
        | error e =>
          rw [had] at hmem
          dsimp only at hmem
          rw [htokE] at hmem
          rcases List.mem_append.mp hmem with h | h
          · rcases List.mem_append.mp h with h1 | h1
            · simp at h1
            · exact absurd h1 (flightPost_notin_iata env _ body)
          · exact absurd h (flightPost_notin_iata env _ body)
        | ok adults =>
          rw [had] at hmem
          dsimp only at hmem
          have hbody : ∀ eff2 : List AmadeusEffect,
              eff2 = tokE ++ (get_iata_code env ((paramsGet params "from").getD "")).2 ++
                (get_iata_code env ((paramsGet params "to").getD "")).2 ++
                [.flightPost (buildFlightBody
                  (get_iata_code env ((paramsGet params "from").getD "")).1
                  (get_iata_code env ((paramsGet params "to").getD "")).1
                  ((paramsGet params "departureDate").getD "")
                  (if !(pyTruthyOptStr (paramsGet params "returnDate")) then none
                    else paramsGet params "returnDate") adults)] →
              AmadeusEffect.flightPost body ∈ eff2 →
              jsObjLookup ((jsObjLookup body "searchCriteria").getD .null)
                "maxFlightOffers" = some (.num 5) := by
            intro eff2 he hm
            subst he
            rcases List.mem_append.mp hm with h | h
            · rcases List.mem_append.mp h with h1 | h1
              · rcases List.mem_append.mp h1 with h2 | h2
                · rw [htokE] at h2; simp at h2
                · exact absurd h2 (flightPost_notin_iata env _ body)
              · exact absurd h1 (flightPost_notin_iata env _ body)
            · have heq := List.mem_singleton.mp h
              cases heq
              exact buildFlightBody_maxOffers _ _ _ _ _
          cases hf : env.flightHttp with
          | status429 => rw [hf] at hmem; exact hbody _ rfl hmem
          | raised e => rw [hf] at hmem; exact hbody _ rfl hmem
          | httpErr e => rw [hf] at hmem; exact hbody _ rfl hmem
          | okResp j => rw [hf] at hmem; exact hbody _ rfl hmem
    · rw [if_neg hmiss] at hmem
      simp at hmem

/-- A concrete environment for exercising the Amadeus flight search. -/
def demoEnvC9 : AmadeusEnv :=
  ⟨.okTok "tok", none, fun _ => none, fun c => .okCode (pyUpper (pyTake 3 c)),
   .okResp (.obj []), .okResp (.obj []), fun _ => none, "2025-01-01"⟩

/-- Concrete flight-search parameters, with a caller-supplied
`maxFlightOffers=50` that must be ignored. -/
def demoParamsC9 : List (String × String) :=
  [("from", "bos"), ("to", "par"), ("departureDate", "2025-05-01"),
   ("adults", "2"), ("maxFlightOffers", "50")]

/-- Witness for `flight_maxFlightOffers_spec`: the body actually posted for
a concrete search (caller even supplies `maxFlightOffers=50` as a parameter)
still carries `maxFlightOffers = 5`. -/
theorem flight_maxFlightOffers_spec_witness :
    AmadeusEffect.flightPost (buildFlightBody "BOS" "PAR" "2025-05-01" none 2) ∈
      (perform_flight_search_api demoEnvC9 demoParamsC9).2 ∧
    jsObjLookup ((jsObjLookup (buildFlightBody "BOS" "PAR" "2025-05-01" none 2)
      "searchCriteria").getD .null) "maxFlightOffers" = some (.num 5) := by
  have htrace : (perform_flight_search_api demoEnvC9 demoParamsC9).2 =
      [.tokenFetch, .iataHttp "bos", .iataHttp "par",
       .flightPost (buildFlightBody "BOS" "PAR" "2025-05-01" none 2)] := rfl
  have hmem : AmadeusEffect.flightPost (buildFlightBody "BOS" "PAR" "2025-05-01" none 2) ∈
      (perform_flight_search_api demoEnvC9 demoParamsC9).2 := by
    rw [htrace]
    exact List.mem_cons_of_mem _ (List.mem_cons_of_mem _
      (List.mem_cons_of_mem _ (List.mem_cons_self _ _)))
  exact ⟨hmem, flight_maxFlightOffers_spec.2 demoEnvC9 demoParamsC9
    (buildFlightBody "BOS" "PAR" "2025-05-01" none 2) hmem⟩

/-- An environment whose token POST raises and that has no cached token. -/
def cexEnvC5 : AmadeusEnv :=
  ⟨.raised "ConnectionError", none, fun _ => none, fun _ => .okNoCode,
   .raised "x", .raised "x", fun _ => none, "2025-01-01"⟩

/-- An environment whose token POST succeeds. -/
def okEnvC5 : AmadeusEnv :=
  ⟨.okTok "tok", none, fun _ => none, fun _ => .okNoCode,
   .okResp (.obj []), .okResp (.obj []), fun _ => none, "2025-01-01"⟩

/-- C5 counterexample: `perform_hotel_search_api` can raise.  With all four
required parameters present, (a) a failing token fetch with no cached token
propagates out of the function (the call sits before the `try` block), and
(b) a non-integer `adults` value makes `int(params.get("adults", 1))` raise
`ValueError`, also outside the `try` block. -/
theorem hotel_search_raises_counterexample :
    (perform_hotel_search_api cexEnvC5
      [("city", "Paris"), ("checkInDate", "2025-05-01"),
       ("checkOutDate", "2025-05-05"), ("adults", "2")]).1 =
      Except.error "ConnectionError" ∧
    (perform_hotel_search_api okEnvC5
      [("city", "Paris"), ("checkInDate", "2025-05-01"),
       ("checkOutDate", "2025-05-05"), ("adults", "two")]).1 =
      Except.error "invalid literal for int() with base 10: two" := by
  exact ⟨rfl, rfl⟩

/-- C5 (amended): with any required key missing or empty, both functions
return a single-key `{"error": ...}` dict naming the missing parameters and
perform no token fetch or HTTP request; `perform_flight_search_api` never
raises; `perform_hotel_search_api` does not raise provided the token fetch
succeeds and the `adults` value parses as an integer (those two steps run
outside its `try` block, so their exceptions propagate). -/
theorem amadeus_error_dict_spec :
    (∀ (env : AmadeusEnv) (params : List (String × String)),
      (["from", "to", "departureDate"].filter
        fun k => !(pyTruthyOptStr (paramsGet params k))) ≠ [] →
      perform_flight_search_api env params =
        (.ok (errObj ("Missing required parameter(s): " ++ String.intercalate ", "
          (["from", "to", "departureDate"].filter
            fun k => !(pyTruthyOptStr (paramsGet params k))))), [])) ∧
    (∀ (env : AmadeusEnv) (params : List (String × String)),
      (["city", "checkInDate", "checkOutDate", "adults"].filter
        fun k => !(pyTruthyOptStr (paramsGet params k))) ≠ [] →
      perform_hotel_search_api env params =
        (.ok (errObj ("Missing required params: " ++ String.intercalate ", "
          (["city", "checkInDate", "checkOutDate", "adults"].filter
            fun k => !(pyTruthyOptStr (paramsGet params k))))), [])) ∧
    (∀ (env : AmadeusEnv) (params : List (String × String)),
      ∃ j, (perform_flight_search_api env params).1 = .ok j) ∧
    (∀ (env : AmadeusEnv) (params : List (String × String)) (tok : String) (n : Int),
      (get_amadeus_access_token env).1 = .ok tok →
      pyIntOfString ((paramsGet params "adults").getD "") = .ok n →
      ∃ j, (perform_hotel_search_api env params).1 = .ok j) := by
  refine ⟨?_, ?_, ?_, ?_⟩
  · intro env params hne
    unfold perform_flight_search_api
    dsimp only
    rw [if_neg (by simpa [List.isEmpty_iff] using hne)]
  · intro env params hne
    unfold perform_hotel_search_api
    dsimp only
    rw [if_neg (by simpa [List.isEmpty_iff] using hne)]
  · intro env params
    unfold perform_flight_search_api
    dsimp only
    by_cases hmiss :
        ((["from", "to", "departureDate"].filter
          fun k => !(pyTruthyOptStr (paramsGet params k))).isEmpty) = true
    · rw [if_pos hmiss]
      rcases htok : get_amadeus_access_token env with ⟨tokR, tokE⟩
      cases tokR with
      | error e => exact ⟨_, rfl⟩
      | ok t =>
        dsimp only
        cases had : (match paramsGet params "adults" with
          | none => Except.ok (1 : Int)
          | some s => if s = "" then Except.ok 1 else pyIntOfString s) with
        | error e => exact ⟨_, rfl⟩
        | ok adults =>
          dsimp only
          cases env.flightHttp <;> exact ⟨_, rfl⟩
    · rw [if_neg hmiss]
      exact ⟨_, rfl⟩
  · intro env params tok n htok hadults
    unfold perform_hotel_search_api
    dsimp only
    by_cases hmiss :
        ((["city", "checkInDate", "checkOutDate", "adults"].filter
          fun k => !(pyTruthyOptStr (paramsGet params k))).isEmpty) = true
    · rw [if_pos hmiss]
      rcases ht : get_amadeus_access_token env with ⟨tokR, tokE⟩
      rw [ht] at htok
      dsimp only at htok
      cases tokR with
      | error e => exact absurd htok (by simp)
      | ok t =>
        dsimp only
        rw [hadults]
        dsimp only
        cases env.hotelHttp with
        | okResp j => cases j <;> exact ⟨_, rfl⟩
        | status429 => exact ⟨_, rfl⟩
        | httpErr e => exact ⟨_, rfl⟩
        | raised e => exact ⟨_, rfl⟩
    · rw [if_neg hmiss]
      exact ⟨_, rfl⟩

/-- Witness for `amadeus_error_dict_spec`: with empty parameter dicts both
functions report all required keys missing without any effect; with complete
parameters the flight search returns a dict, and the hotel search returns a
dict when the token fetch succeeds and `adults` is `"2"`. -/
theorem amadeus_error_dict_spec_witness :
    perform_flight_search_api okEnvC5 [] =
      (.ok (errObj "Missing required parameter(s): from, to, departureDate"), []) ∧
    perform_hotel_search_api okEnvC5 [("adults", "")] =
      (.ok (errObj "Missing required params: city, checkInDate, checkOutDate, adults"), []) ∧
    (∃ j, (perform_flight_search_api cexEnvC5
      [("from", "Boston"), ("to", "Paris"), ("departureDate", "2025-05-01")]).1 = .ok j) ∧
    (∃ j, (perform_hotel_search_api okEnvC5
      [("city", "Paris"), ("checkInDate", "2025-05-01"),
       ("checkOutDate", "2025-05-05"), ("adults", "2")]).1 = .ok j) := by
  refine ⟨?_, ?_, ?_, ?_⟩
  · have := amadeus_error_dict_spec.1 okEnvC5 [] (by decide)
    simpa using this
  · have := amadeus_error_dict_spec.2.1 okEnvC5 [("adults", "")] (by decide)
    simpa using this
  · exact amadeus_error_dict_spec.2.2.1 cexEnvC5
      [("from", "Boston"), ("to", "Paris"), ("departureDate", "2025-05-01")]
  · exact amadeus_error_dict_spec.2.2.2 okEnvC5
      [("city", "Paris"), ("checkInDate", "2025-05-01"),
       ("checkOutDate", "2025-05-05"), ("adults", "2")] "tok" 2 rfl rfl

/- ------------------------------------------------------------------ -/
/- flight_service/app/services/flight_service.py (claims C2, C10)      -/
/- ------------------------------------------------------------------ -/

/-- Python exceptions distinguished by the flight service paths:
`ValueError`, FastAPI `HTTPException(status_code, detail)`, anything else. -/
inductive PyErr where
  | valueError (msg : String)
  | httpExc (code : Nat) (msg : String)
  | other (msg : String)

/-- Outcome of one GET against the search-incomplete endpoint: a non-200
response (turned into an `HTTPException`, which the broad handler
re-raises), any other exception (timeouts included; re-raised), or a
parsed JSON body. -/
inductive PollResp where
  | pbad (code : Nat) (text : String)
  | praised (msg : String)
  | pok (body : Js)

/-- Outcome of the initial search-one-way GET. -/
inductive SearchResp where
  | timeout
  | badStatus (code : Nat) (text : String)
  | raised (msg : String)
  | sok (body : Js)

/-- External state of `FlightService`: the initial search response and the
response to the `i`-th poll (1-based). -/
structure SkyEnv where
  search : SearchResp
  poll : Nat → PollResp

/-- `app/config/settings.py, Settings`: the fields `fetch_flight_data` and
`fetch_incomplete_search` read, with their declared defaults. -/
structure FlightServiceSettings where
  DEFAULT_MARKET : String := "US"
  DEFAULT_LOCALE : String := "en-US"
  DEFAULT_CURRENCY : String := "USD"
  DEFAULT_ADULTS : Int := 1
  DEFAULT_CABIN_CLASS : String := "economy"
  MAX_POLLING_ATTEMPTS : Nat := 10

/-- `Settings()` with no environment overrides. -/
def defaultFlightSettings : FlightServiceSettings := {}

/-- `data.get("data", {}).get("context", {}).get(k)`: raises on non-dict
intermediates, else an optional value. -/
def pyCtxGet (data : Js) (k : String) : Except String (Option Js) := do
  let d1 ← pyGetD data "data" (.obj [])
  let ctx ← pyGetD d1 "context" (.obj [])
  pyGetOpt ctx k

/-- The `while attempt < max_attempts` loop of `fetch_incomplete_search`:
`rem` is the remaining fuel, `polls` the number of requests already made,
`lastData` the latest parsed body.  Returns the result together with the
total number of polls performed.  Exhausting the fuel returns the most
recent data (`return data`; with zero attempts the name is unbound). -/
def pollLoop (env : SkyEnv) : Nat → Nat → Option Js → Except PyErr Js × Nat
  | 0, polls, lastData =>
    (match lastData with
     | some d => .ok d
     | none => .error (.other "UnboundLocalError: data"), polls)
  | rem + 1, polls, lastData =>
    match env.poll (polls + 1) with
    | .pbad code text =>
      (.error (.httpExc code ("SkyScanner API error for incomplete search: " ++ text)),
        polls + 1)
    | .praised msg => (.error (.other msg), polls + 1)
    | .pok d =>
      match pyCtxGet d "status" with
      | .error e => (.error (.other e), polls + 1)
      | .ok st =>
        if jsOptEqStr st "complete" then (.ok d, polls + 1)
        else pollLoop env rem (polls + 1) (some d)

/-- `FlightService.fetch_incomplete_search`, returning the outcome and how
many polls were issued. -/
def fetch_incomplete_search (env : SkyEnv) (maxAttempts : Nat) :
    Except PyErr Js × Nat :=
  pollLoop env maxAttempts 0 none

/-- The part of `fetch_flight_data` after the query string is assembled:
issue the GET (the query is recorded as the trace), propagate HTTP errors,
and on an `incomplete` status with a truthy `searchId` delegate to
`fetch_incomplete_search`; otherwise return the data. -/
def fetch_flight_after_query (env : SkyEnv) (st : FlightServiceSettings)
    (query : List (String × String)) :
    Except PyErr Js × List (List (String × String)) :=
  match env.search with
  | .timeout =>
    (.error (.httpExc 504 "Timeout while connecting to SkyScanner API"), [query])
  | .badStatus code text =>
    (.error (.httpExc code ("SkyScanner API error: " ++ text)), [query])
  | .raised msg => (.error (.other msg), [query])
  | .sok data =>
    match pyCtxGet data "status" with
    | .error e => (.error (.other e), [query])
    | .ok stv =>
      if jsOptEqStr stv "incomplete" then
        match pyCtxGet data "searchId" with
        | .error e => (.error (.other e), [query])
        | .ok sid =>
          if pyFalsyOpt sid then (.ok data, [query])
          else ((fetch_incomplete_search env st.MAX_POLLING_ATTEMPTS).1, [query])
      else (.ok data, [query])

/-- The query parameters common to daily and monthly requests. -/
def skyBaseQuery (st : FlightServiceSettings) (source destination : String) :
    List (String × String) :=
  [("fromEntityId", source), ("toEntityId", destination),
   ("market", st.DEFAULT_MARKET), ("locale", st.DEFAULT_LOCALE),
   ("currency", st.DEFAULT_CURRENCY), ("adults", toString st.DEFAULT_ADULTS),
   ("cabinClass", st.DEFAULT_CABIN_CLASS)]

/-- `FlightService.fetch_flight_data`: build the common query parameters,
add `departDate` when `date` is truthy, else `wholeMonthDepart` when
`month` is truthy, else raise `ValueError` before any HTTP request. -/
def fetch_flight_data (env : SkyEnv) (st : FlightServiceSettings)
    (source destination : String) (date month : Option String) :
    Except PyErr Js × List (List (String × String)) :=
  if pyTruthyOptStr date then
    fetch_flight_after_query env st
      (skyBaseQuery st source destination ++ [("departDate", date.getD "")])
  else if pyTruthyOptStr month then
    fetch_flight_after_query env st
      (skyBaseQuery st source destination ++ [("wholeMonthDepart", month.getD "")])
  else
    (.error (.valueError "Either date or month must be provided"), [])

/-- Poll `i` returned HTTP 200 with a JSON status other than `complete`. -/
def pollIncompleteAt (env : SkyEnv) (i : Nat) : Prop :=
  ∃ d st, env.poll i = .pok d ∧ pyCtxGet d "status" = .ok st ∧
    jsOptEqStr st "complete" = false

/-- Poll `i` returned HTTP 200 with JSON status `complete`. -/
def pollCompleteAt (env : SkyEnv) (i : Nat) : Prop :=
  ∃ d st, env.poll i = .pok d ∧ pyCtxGet d "status" = .ok st ∧
    jsOptEqStr st "complete" = true

lemma pollLoop_succ (env : SkyEnv) (rem polls : Nat) (d0 : Option Js) :
    pollLoop env (rem + 1) polls d0 =
      match env.poll (polls + 1) with
      | .pbad code text =>
        (.error (.httpExc code ("SkyScanner API error for incomplete search: " ++ text)),
          polls + 1)
      | .praised msg => (.error (.other msg), polls + 1)
      | .pok d =>
        match pyCtxGet d "status" with
        | .error e => (.error (.other e), polls + 1)
        | .ok st =>
          if jsOptEqStr st "complete" then (.ok d, polls + 1)
          else pollLoop env rem (polls + 1) (some d) := rfl

lemma pollLoop_count (env : SkyEnv) :
    ∀ (rem polls : Nat) (d0 : Option Js), (pollLoop env rem polls d0).2 ≤ polls + rem := by
  intro rem
  induction rem with
  | zero => intro polls d0; cases d0 <;> simp [pollLoop]
  | succ r ih =>
    intro polls d0
    rw [pollLoop_succ]
    cases hp : env.poll (polls + 1) with
    | pbad code text => simp
    | praised msg => simp
    | pok d =>
      dsimp only
      cases hs : pyCtxGet d "status" with
      | error e => simp
      | ok stv =>
        dsimp only
        by_cases hc : jsOptEqStr stv "complete" = true
        · rw [if_pos hc]; simp
        · rw [if_neg hc]
          calc (pollLoop env r (polls + 1) (some d)).2 ≤ (polls + 1) + r :=
                ih (polls + 1) (some d)
          _ = polls + (r + 1) := by omega

lemma pollLoop_all_incomplete (env : SkyEnv) :
    ∀ (rem polls : Nat) (d0 : Option Js), 1 ≤ rem →
      (∀ i, polls + 1 ≤ i → i ≤ polls + rem → pollIncompleteAt env i) →
      ∃ d, env.poll (polls + rem) = .pok d ∧
        pollLoop env rem polls d0 = (.ok d, polls + rem) := by
  intro rem
  induction rem with
  | zero => intro polls d0 h; omega
  | succ r ih =>
    intro polls d0 _ hall
    obtain ⟨d, st, hp, hst, hinc⟩ := hall (polls + 1) (by omega) (by omega)
    cases r with
    | zero =>
      refine ⟨d, hp, ?_⟩
      rw [pollLoop_succ]
      rw [hp]
      dsimp only
      rw [hst]
      dsimp only
      rw [if_neg (by rw [hinc]; exact Bool.false_ne_true)]
      rfl
    | succ r2 =>
      have hshift : ∀ i, (polls + 1) + 1 ≤ i → i ≤ (polls + 1) + (r2 + 1) →
          pollIncompleteAt env i := by
        intro i hi1 hi2
        exact hall i (by omega) (by omega)
      obtain ⟨d2, hp2, hloop⟩ := ih (polls + 1) (some d) (by omega) hshift
      have heq : (polls + 1) + (r2 + 1) = polls + (r2 + 1 + 1) := by omega
      refine ⟨d2, by rw [← heq]; exact hp2, ?_⟩
      rw [pollLoop_succ]
      rw [hp]
      dsimp only
      rw [hst]
      dsimp only
      rw [if_neg (by rw [hinc]; exact Bool.false_ne_true), hloop, heq]

lemma pollLoop_first_complete (env : SkyEnv) :
    ∀ (rem polls : Nat) (d0 : Option Js) (k : Nat),
      polls + 1 ≤ k → k ≤ polls + rem →
      (∀ i, polls + 1 ≤ i → i < k → pollIncompleteAt env i) →
      pollCompleteAt env k →
      ∃ d, env.poll k = .pok d ∧ pollLoop env rem polls d0 = (.ok d, k) := by
  intro rem
  induction rem with
  | zero => intro polls d0 k h1 h2; omega
  | succ r ih =>
    intro polls d0 k h1 h2 hall hk
    by_cases hke : k = polls + 1
    · subst hke
      obtain ⟨d, st, hp, hst, hcomp⟩ := hk
      refine ⟨d, hp, ?_⟩
      rw [pollLoop_succ]
      rw [hp]
      dsimp only
      rw [hst]
      dsimp only
      rw [if_pos hcomp]
    · obtain ⟨d, st, hp, hst, hinc⟩ := hall (polls + 1) (by omega) (by omega)
      obtain ⟨d2, hp2, hloop⟩ := ih (polls + 1) (some d) k (by omega) (by omega)
        (fun i hi1 hi2 => hall i (by omega) hi2) hk
      refine ⟨d2, hp2, ?_⟩
      rw [pollLoop_succ]
      rw [hp]
      dsimp only
      rw [hst]
      dsimp only
      rw [if_neg (by rw [hinc]; exact Bool.false_ne_true), hloop]

/-- C2: `fetch_incomplete_search` polls at most `maxAttempts` times
(`MAX_POLLING_ATTEMPTS`, default 10); if the first `complete` status arrives
at poll `k ≤ maxAttempts` it returns that poll's data after exactly `k`
polls; if every poll up to `maxAttempts` reports a non-`complete` status it
stops and returns the most recent response data after exactly `maxAttempts`
polls, neither polling again nor raising.  The fuelled loop terminates by
construction. -/
theorem fetch_incomplete_search_spec :
    (∀ (env : SkyEnv) (maxAttempts : Nat),
      (fetch_incomplete_search env maxAttempts).2 ≤ maxAttempts) ∧
    (∀ (env : SkyEnv) (maxAttempts : Nat), 1 ≤ maxAttempts →
      (∀ i, 1 ≤ i → i ≤ maxAttempts → pollIncompleteAt env i) →
      ∃ d, env.poll maxAttempts = .pok d ∧
        fetch_incomplete_search env maxAttempts = (.ok d, maxAttempts)) ∧
    (∀ (env : SkyEnv) (maxAttempts k : Nat), 1 ≤ k → k ≤ maxAttempts →
      (∀ i, 1 ≤ i → i < k → pollIncompleteAt env i) →
      pollCompleteAt env k →
      ∃ d, env.poll k = .pok d ∧
        fetch_incomplete_search env maxAttempts = (.ok d, k)) ∧
    defaultFlightSettings.MAX_POLLING_ATTEMPTS = 10 := by
  refine ⟨?_, ?_, ?_, rfl⟩
  · intro env maxAttempts
    have := pollLoop_count env maxAttempts 0 none
    simpa [fetch_incomplete_search] using this
  · intro env maxAttempts h1 hall
    have := pollLoop_all_incomplete env maxAttempts 0 none h1
      (by intro i hi1 hi2; exact hall i (by omega) (by omega))
    simpa [fetch_incomplete_search] using this
  · intro env maxAttempts k h1 h2 hall hk
    have := pollLoop_first_complete env maxAttempts 0 none k (by omega) (by omega)
      (by intro i hi1 hi2; exact hall i (by omega) hi2) hk
    simpa [fetch_incomplete_search] using this

/-- A search-incomplete response body with the given context status. -/
def skyBody (status : String) : Js :=
  .obj [("data", .obj [("context", .obj [("status", .str status)])])]

/-- A concrete environment whose polls 1 and 2 are `incomplete` and whose
poll 3 is `complete`. -/
def demoSkyEnv : SkyEnv :=
  ⟨.sok (skyBody "incomplete"),
   fun i => if i < 3 then .pok (skyBody "incomplete") else .pok (skyBody "complete")⟩

/-- Witness for `fetch_incomplete_search_spec`: with `maxAttempts = 10`
and the first `complete` at poll 3, the loop returns that data after
exactly 3 polls, and the poll count is within the bound. -/
theorem fetch_incomplete_search_spec_witness :
    (∃ d, demoSkyEnv.poll 3 = .pok d ∧
      fetch_incomplete_search demoSkyEnv 10 = (.ok d, 3)) ∧
    (fetch_incomplete_search demoSkyEnv 10).2 ≤ 10 := by
  constructor
  · refine fetch_incomplete_search_spec.2.2.1 demoSkyEnv 10 3 (by norm_num) (by norm_num) ?_ ?_
    · intro i hi1 hi2
      refine ⟨skyBody "incomplete", some (.str "incomplete"), ?_, rfl, rfl⟩
      show (if i < 3 then PollResp.pok (skyBody "incomplete")
        else PollResp.pok (skyBody "complete")) = _
      rw [if_pos (by omega)]
    · refine ⟨skyBody "complete", some (.str "complete"), ?_, rfl, rfl⟩
      show (if 3 < 3 then PollResp.pok (skyBody "incomplete")
        else PollResp.pok (skyBody "complete")) = _
      rw [if_neg (by omega)]
  · exact fetch_incomplete_search_spec.1 demoSkyEnv 10

lemma pollLoop_no_valueError (env : SkyEnv) :
    ∀ (rem polls : Nat) (d0 : Option Js) (msg : String),
      (pollLoop env rem polls d0).1 ≠ .error (.valueError msg) := by
  intro rem
  induction rem with
  | zero => intro polls d0 msg; cases d0 <;> simp [pollLoop]
  | succ r ih =>
    intro polls d0 msg
    rw [pollLoop_succ]
    cases hp : env.poll (polls + 1) with
    | pbad code text => simp
    | praised m => simp
    | pok d =>
      dsimp only
      cases hs : pyCtxGet d "status" with
      | error e => simp
      | ok stv =>
        dsimp only
        by_cases hc : jsOptEqStr stv "complete" = true
        · rw [if_pos hc]; simp
        · rw [if_neg hc]
          exact ih (polls + 1) (some d) msg

lemma fetch_flight_after_no_valueError (env : SkyEnv) (st : FlightServiceSettings)
    (query : List (String × String)) (msg : String) :
    (fetch_flight_after_query env st query).1 ≠ .error (.valueError msg) := by
  unfold fetch_flight_after_query
  cases hs : env.search with
  | timeout => simp
  | badStatus code text => simp
  | raised m => simp
  | sok data =>
    dsimp only
    cases hc : pyCtxGet data "status" with
    | error e => simp
    | ok stv =>
      dsimp only
      by_cases h1 : jsOptEqStr stv "incomplete" = true
      · rw [if_pos h1]
        cases hsid : pyCtxGet data "searchId" with
        | error e => simp
        | ok sid =>
          dsimp only
          by_cases h2 : pyFalsyOpt sid = true
          · rw [if_pos h2]; simp
          · rw [if_neg h2]
            have := pollLoop_no_valueError env st.MAX_POLLING_ATTEMPTS 0 none msg
            simpa [fetch_incomplete_search] using this
      · rw [if_neg h1]; simp

lemma fetch_flight_after_trace (env : SkyEnv) (st : FlightServiceSettings)
    (query : List (String × String)) :
    (fetch_flight_after_query env st query).2 = [query] := by
  unfold fetch_flight_after_query
  cases hs : env.search with
  | timeout => rfl
  | badStatus code text => rfl
  | raised m => rfl
  | sok data =>
    dsimp only
    cases hc : pyCtxGet data "status" with
    | error e => rfl
    | ok stv =>
      dsimp only
      by_cases h1 : jsOptEqStr stv "incomplete" = true
      · rw [if_pos h1]
        cases hsid : pyCtxGet data "searchId" with
        | error e => rfl
        | ok sid =>
          dsimp only
          by_cases h2 : pyFalsyOpt sid = true
          · rw [if_pos h2]
          · rw [if_neg h2]
      · rw [if_neg h1]

/-- C10: `fetch_flight_data` raises `ValueError` with message
`Either date or month must be provided` exactly when both `date` and
`month` are falsy, and then no HTTP request has been issued; when `date`
is truthy the (single) issued query carries `departDate` and no
`wholeMonthDepart` — even when `month` is also supplied — and when only
`month` is truthy the query carries `wholeMonthDepart` and no `departDate`. -/
theorem fetch_flight_data_spec (env : SkyEnv) (st : FlightServiceSettings)
    (source destination : String) (date month : Option String) :
    ((fetch_flight_data env st source destination date month).1 =
        .error (.valueError "Either date or month must be provided") ↔
      (pyTruthyOptStr date = false ∧ pyTruthyOptStr month = false)) ∧
    (pyTruthyOptStr date = false → pyTruthyOptStr month = false →
      (fetch_flight_data env st source destination date month).2 = []) ∧
    (pyTruthyOptStr date = true →
      (fetch_flight_data env st source destination date month).2 =
        [skyBaseQuery st source destination ++ [("departDate", date.getD "")]] ∧
      ∀ q ∈ (fetch_flight_data env st source destination date month).2,
        paramsGet q "departDate" = some (date.getD "") ∧
        paramsGet q "wholeMonthDepart" = none) ∧
    (pyTruthyOptStr date = false → pyTruthyOptStr month = true →
      ∀ q ∈ (fetch_flight_data env st source destination date month).2,
        paramsGet q "wholeMonthDepart" = some (month.getD "") ∧
        paramsGet q "departDate" = none) := by
  refine ⟨⟨?_, ?_⟩, ?_, ?_, ?_⟩
  · intro hres
    cases hd : pyTruthyOptStr date with
    | false =>
      cases hm : pyTruthyOptStr month with
      | false => exact ⟨rfl, rfl⟩
      | true =>
        exfalso
        unfold fetch_flight_data at hres
        rw [if_neg (by rw [hd]; exact Bool.false_ne_true), if_pos hm] at hres
        exact fetch_flight_after_no_valueError env st _ _ hres
    | true =>
      exfalso
      unfold fetch_flight_data at hres
      rw [if_pos hd] at hres
      exact fetch_flight_after_no_valueError env st _ _ hres
  · rintro ⟨hd, hm⟩
    unfold fetch_flight_data
    rw [if_neg (by rw [hd]; exact Bool.false_ne_true),
        if_neg (by rw [hm]; exact Bool.false_ne_true)]
  · intro hd hm
    unfold fetch_flight_data
    rw [if_neg (by rw [hd]; exact Bool.false_ne_true),
        if_neg (by rw [hm]; exact Bool.false_ne_true)]
  · intro hd
    unfold fetch_flight_data
    rw [if_pos hd, fetch_flight_after_trace]
    refine ⟨rfl, ?_⟩
    intro q hq
    rw [List.mem_singleton] at hq
    subst hq
    exact ⟨rfl, rfl⟩
  · intro hd hm q hq
    unfold fetch_flight_data at hq
    rw [if_neg (by rw [hd]; exact Bool.false_ne_true), if_pos hm,
        fetch_flight_after_trace] at hq
    rw [List.mem_singleton] at hq
    subst hq
    exact ⟨rfl, rfl⟩

/-- Witness for `fetch_flight_data_spec` at concrete arguments: with both
`date` and `month` absent the call raises the `ValueError` with no request
issued; with `date = 2025-05-15` (and `month` also supplied) the single
query uses `departDate`; with only `month = 2025-05` it uses
`wholeMonthDepart`. -/
theorem fetch_flight_data_spec_witness :
    (fetch_flight_data demoSkyEnv defaultFlightSettings "PARI" "BOS" none none).1 =
      .error (.valueError "Either date or month must be provided") ∧
    (fetch_flight_data demoSkyEnv defaultFlightSettings "PARI" "BOS" none none).2 = [] ∧
    (∀ q ∈ (fetch_flight_data demoSkyEnv defaultFlightSettings "PARI" "BOS"
        (some "2025-05-15") (some "2025-05")).2,
      paramsGet q "departDate" = some "2025-05-15" ∧
      paramsGet q "wholeMonthDepart" = none) ∧
    (∀ q ∈ (fetch_flight_data demoSkyEnv defaultFlightSettings "PARI" "BOS"
        none (some "2025-05")).2,
      paramsGet q "wholeMonthDepart" = some "2025-05" ∧
      paramsGet q "departDate" = none) := by
  refine ⟨?_, ?_, ?_, ?_⟩
  · exact (fetch_flight_data_spec demoSkyEnv defaultFlightSettings "PARI" "BOS"
      none none).1.2 ⟨rfl, rfl⟩
  · exact (fetch_flight_data_spec demoSkyEnv defaultFlightSettings "PARI" "BOS"
      none none).2.1 rfl rfl
  · exact ((fetch_flight_data_spec demoSkyEnv defaultFlightSettings "PARI" "BOS"
      (some "2025-05-15") (some "2025-05")).2.2.1 rfl).2
  · exact (fetch_flight_data_spec demoSkyEnv defaultFlightSettings "PARI" "BOS"
      none (some "2025-05")).2.2.2 rfl rfl

/- ------------------------------------------------------------------ -/
/- server/agents/rootAgent.py, root_agent_node (claims C1, C4)         -/
/- ------------------------------------------------------------------ -/

/-- `pat` occurs as a substring of `l`. -/
def listContainsSub (l pat : List Char) : Bool :=
  (List.range (l.length + 1)).any fun i => pat.isPrefixOf (l.drop i)

/-- `re.search` of a literal pattern: substring containment. -/
def strContains (s pat : String) : Bool := listContainsSub s.data pat.data

/-- `.` in these regexes does not match a newline. -/
def noNewline (l : List Char) : Bool := l.all fun c => decide (c ≠ '\n')

/-- `re.search` of `a.*b`: an occurrence of `a` followed, after a
newline-free gap, by an occurrence of `b`. -/
def seqMatch (s a b : String) : Bool :=
  (List.range (s.data.length + 1)).any fun i =>
    a.data.isPrefixOf (s.data.drop i) &&
    (List.range (s.data.length + 1)).any fun g =>
      b.data.isPrefixOf (s.data.drop (i + a.data.length + g)) &&
      noNewline ((s.data.drop (i + a.data.length)).take g)

/-- The flight keyword regex
`(flight|flights?|airfare|plane|book.*(ticket|flight)|show.*flights?|find.*flight)`:
`flights?` (and the `flights?` after `show.*`) matches exactly when
`flight` occurs, since the trailing `s` is optional. -/
def reFlight (u : String) : Bool :=
  strContains u "flight" || strContains u "airfare" || strContains u "plane" ||
  seqMatch u "book" "ticket" || seqMatch u "book" "flight" ||
  seqMatch u "show" "flight" || seqMatch u "find" "flight"

/-- The hotel keyword regex `(hotel|stay|room|accommodation|book.*hotel|lodge)`. -/
def reHotel (u : String) : Bool :=
  strContains u "hotel" || strContains u "stay" || strContains u "room" ||
  strContains u "accommodation" || seqMatch u "book" "hotel" || strContains u "lodge"

/-- The restaurant/attraction keyword regex
`(restaurant|food|eat|dining|cuisine|attraction|visit|tour|sightseeing|landmark|discover|explore)`. -/
def reRestaurant (u : String) : Bool :=
  strContains u "restaurant" || strContains u "food" || strContains u "eat" ||
  strContains u "dining" || strContains u "cuisine" || strContains u "attraction" ||
  strContains u "visit" || strContains u "tour" || strContains u "sightseeing" ||
  strContains u "landmark" || strContains u "discover" || strContains u "explore"

/-- The itinerary/trip keyword regex `(itinerary|schedule|plan|trip|travel)`. -/
def reItinerary (u : String) : Bool :=
  strContains u "itinerary" || strContains u "schedule" || strContains u "plan" ||
  strContains u "trip" || strContains u "travel"

/-- The packing keyword regex `(pack|luggage|essentials|carry|prepare|things to bring)`. -/
def rePacking (u : String) : Bool :=
  strContains u "pack" || strContains u "luggage" || strContains u "essentials" ||
  strContains u "carry" || strContains u "prepare" || strContains u "things to bring"

/-- The four `weather_patterns` (already-lowercased input; `storms?` matches
exactly when `storm` occurs, and the grouped alternatives are expanded). -/
def isWeatherQuery (u : String) : Bool :=
  strContains u "weather" || strContains u "forecast" || strContains u "temperature" ||
  strContains u "rain" || strContains u "sunny" || strContains u "cloudy" ||
  strContains u "hot" || strContains u "cold" || strContains u "humid" ||
  strContains u "wind" || strContains u "storm" ||
  strContains u "what's it like in" || strContains u "what is it like in" ||
  strContains u "should i bring" || strContains u "should i pack" ||
  strContains u "should i wear" ||
  strContains u "will it rain" || strContains u "will it snow" ||
  strContains u "will it be hot" || strContains u "will it be cold" ||
  strContains u "will it be sunny" || strContains u "will it be cloudy"

/-- The travel-aspects regex `(hotel|flight|itinerary|trip|travel plan|book|reserve)`
checked inside the weather branch. -/
def reTravelAspects (u : String) : Bool :=
  strContains u "hotel" || strContains u "flight" || strContains u "itinerary" ||
  strContains u "trip" || strContains u "travel plan" || strContains u "book" ||
  strContains u "reserve"

/-- The `agent_mapping` dict of `root_agent_node`. -/
def agent_mapping : List (String × String) :=
  [("explore", "explore_agent"), ("in_travel", "in_travel_agent"),
   ("planning", "planning_agent"), ("post_travel", "post_travel_agent"),
   ("pre_travel", "pre_travel_agent")]

/-- The conditional-edge targets wired by `build_travel_agent_graph`. -/
def travelGraphTargets : List String :=
  ["explore_agent", "pre_travel_agent", "planning_agent"]

/-- External inputs of one `root_agent_node` run: the locations the weather
tool extracts from the input, the outcome of the multi-location weather
fetch, and the raw LLM fallback reply. -/
structure RootEnv where
  locations : List String
  weatherFetch : Except String Js
  llmReply : String

/-- What a `root_agent_node` run decides: the agent written to
`state["current_agent"]`, the `is_weather_response` flag, and whether the
LLM fallback was invoked. -/
structure RootResult where
  currentAgent : String
  isWeatherResponse : Bool
  usedLLM : Bool

/-- The keyword-routing chain of `root_agent_node`: the classifier text
and whether it came from the LLM (whose reply is lowercased and stripped). -/
def keywordRoute (env : RootEnv) (u : String) : String × Bool :=
  if reFlight u then ("planning", false)
  else if reHotel u then ("planning", false)
  else if reRestaurant u then ("planning", false)
  else if reItinerary u then ("planning", false)
  else if rePacking u then ("pre_travel", false)
  else (pyStrip (pyLower env.llmReply), true)

/-- `root_agent_node`: lowercase the input; on a weather query with
extracted locations, answer directly (setting `is_weather_response` and
`current_agent = "explore_agent"`) unless travel aspects are present — the
error path behaves the same way; otherwise run the keyword routing and map
the classifier text through `agent_mapping`, defaulting to
`explore_agent`. -/
def root_agent_node (env : RootEnv) (userInput : String) : RootResult :=
  let u := pyLower userInput
  let tail : RootResult :=
    let rt := keywordRoute env u
    ⟨(paramsGet agent_mapping rt.1).getD "explore_agent", false, rt.2⟩
  if isWeatherQuery u && !env.locations.isEmpty then
    match env.weatherFetch with
    | .ok _ => if !reTravelAspects u then ⟨"explore_agent", true, false⟩ else tail
    | .error _ => if !reTravelAspects u then ⟨"explore_agent", true, false⟩ else tail
  else tail

lemma keywordRoute_planning (env : RootEnv) (u : String)
    (h : (reFlight u || reHotel u || reRestaurant u || reItinerary u) = true) :
    keywordRoute env u = ("planning", false) := by
  unfold keywordRoute
  by_cases h1 : reFlight u = true
  · rw [if_pos h1]
  · rw [if_neg h1]
    by_cases h2 : reHotel u = true
    · rw [if_pos h2]
    · rw [if_neg h2]
      by_cases h3 : reRestaurant u = true
      · rw [if_pos h3]
      · rw [if_neg h3]
        by_cases h4 : reItinerary u = true
        · rw [if_pos h4]
        · exfalso
          simp only [Bool.or_eq_true] at h
          rcases h with ((h | h) | h) | h
          · exact h1 h
          · exact h2 h
          · exact h3 h
          · exact h4 h

lemma keywordRoute_pretravel (env : RootEnv) (u : String)
    (h5 : rePacking u = true)
    (hn : (reFlight u || reHotel u || reRestaurant u || reItinerary u) = false) :
    keywordRoute env u = ("pre_travel", false) := by
  simp only [Bool.or_eq_false_iff] at hn
  obtain ⟨⟨⟨n1, n2⟩, n3⟩, n4⟩ := hn
  unfold keywordRoute
  rw [if_neg (by rw [n1]; exact Bool.false_ne_true),
      if_neg (by rw [n2]; exact Bool.false_ne_true),
      if_neg (by rw [n3]; exact Bool.false_ne_true),
      if_neg (by rw [n4]; exact Bool.false_ne_true),
      if_pos h5]

lemma keywordRoute_llm (env : RootEnv) (u : String)
    (h : (keywordRoute env u).2 = true) :
    reFlight u = false ∧ reHotel u = false ∧ reRestaurant u = false ∧
      reItinerary u = false ∧ rePacking u = false := by
  unfold keywordRoute at h
  by_cases h1 : reFlight u = true
  · rw [if_pos h1] at h; cases h
  · rw [if_neg h1] at h
    by_cases h2 : reHotel u = true
    · rw [if_pos h2] at h; cases h
    · rw [if_neg h2] at h
      by_cases h3 : reRestaurant u = true
      · rw [if_pos h3] at h; cases h
      · rw [if_neg h3] at h
        by_cases h4 : reItinerary u = true
        · rw [if_pos h4] at h; cases h
        · rw [if_neg h4] at h
          by_cases h5 : rePacking u = true
          · rw [if_pos h5] at h; cases h
          · exact ⟨Bool.not_eq_true _ ▸ Bool.of_not_eq_true h1,
              Bool.of_not_eq_true h2, Bool.of_not_eq_true h3,
              Bool.of_not_eq_true h4, Bool.of_not_eq_true h5⟩

lemma root_agent_node_cases (env : RootEnv) (input : String) :
    root_agent_node env input = ⟨"explore_agent", true, false⟩ ∨
    root_agent_node env input =
      ⟨(paramsGet agent_mapping (keywordRoute env (pyLower input)).1).getD "explore_agent",
        false, (keywordRoute env (pyLower input)).2⟩ := by
  unfold root_agent_node
  dsimp only
  by_cases hw : (isWeatherQuery (pyLower input) && !env.locations.isEmpty) = true
  · rw [if_pos hw]
    cases env.weatherFetch with
    | ok v =>
      by_cases ht : (!reTravelAspects (pyLower input)) = true
      · rw [if_pos ht]; exact Or.inl rfl
      · rw [if_neg ht]; exact Or.inr rfl
    | error e =>
      by_cases ht : (!reTravelAspects (pyLower input)) = true
      · rw [if_pos ht]; exact Or.inl rfl
      · rw [if_neg ht]; exact Or.inr rfl
  · rw [if_neg hw]; exact Or.inr rfl

/-- C4: when the lowercased input matches any of the flight, hotel,
restaurant/attraction or itinerary keyword regexes and the run is not
intercepted by the weather handling (`is_weather_response` unset),
`current_agent` is deterministically `planning_agent` with no LLM call;
a packing match with none of the earlier regexes routes to
`pre_travel_agent`; and the LLM fallback runs only when no keyword regex
matches. -/
theorem keyword_routing_spec (env : RootEnv) (input : String) :
    ((reFlight (pyLower input) || reHotel (pyLower input) ||
        reRestaurant (pyLower input) || reItinerary (pyLower input)) = true →
      (root_agent_node env input).isWeatherResponse = false →
      (root_agent_node env input).currentAgent = "planning_agent" ∧
      (root_agent_node env input).usedLLM = false) ∧
    (rePacking (pyLower input) = true →
      (reFlight (pyLower input) || reHotel (pyLower input) ||
        reRestaurant (pyLower input) || reItinerary (pyLower input)) = false →
      (root_agent_node env input).isWeatherResponse = false →
      (root_agent_node env input).currentAgent = "pre_travel_agent" ∧
      (root_agent_node env input).usedLLM = false) ∧
    ((root_agent_node env input).usedLLM = true →
      reFlight (pyLower input) = false ∧ reHotel (pyLower input) = false ∧
      reRestaurant (pyLower input) = false ∧ reItinerary (pyLower input) = false ∧
      rePacking (pyLower input) = false) := by
  refine ⟨?_, ?_, ?_⟩
  · intro hmatch hnotw
    rcases root_agent_node_cases env input with hcase | hcase
    · rw [hcase] at hnotw; cases hnotw
    · rw [hcase]
      rw [keywordRoute_planning env (pyLower input) hmatch]
      exact ⟨rfl, rfl⟩
  · intro h5 hn hnotw
    rcases root_agent_node_cases env input with hcase | hcase
    · rw [hcase] at hnotw; cases hnotw
    · rw [hcase]
      rw [keywordRoute_pretravel env (pyLower input) h5 hn]
      exact ⟨rfl, rfl⟩
  · intro hllm
    rcases root_agent_node_cases env input with hcase | hcase
    · rw [hcase] at hllm; cases hllm
    · rw [hcase] at hllm
      exact keywordRoute_llm env (pyLower input) hllm

/-- Witness for `keyword_routing_spec`: with no extracted locations,
`Find me a hotel in Paris` routes to `planning_agent` without the LLM,
`what should I pack` routes to `pre_travel_agent`, and an input that uses
the LLM fallback matches none of the keyword regexes. -/
theorem keyword_routing_spec_witness :
    ((root_agent_node ⟨[], .ok .null, "explore"⟩ "Find me a hotel in Paris").currentAgent =
        "planning_agent" ∧
      (root_agent_node ⟨[], .ok .null, "explore"⟩ "Find me a hotel in Paris").usedLLM = false) ∧
    ((root_agent_node ⟨[], .ok .null, "explore"⟩ "what should I pack").currentAgent =
        "pre_travel_agent" ∧
      (root_agent_node ⟨[], .ok .null, "explore"⟩ "what should I pack").usedLLM = false) ∧
    (reFlight (pyLower "good morning") = false ∧ reHotel (pyLower "good morning") = false ∧
      reRestaurant (pyLower "good morning") = false ∧
      reItinerary (pyLower "good morning") = false ∧
      rePacking (pyLower "good morning") = false) := by
  refine ⟨?_, ?_, ?_⟩
  · exact (keyword_routing_spec ⟨[], .ok .null, "explore"⟩ "Find me a hotel in Paris").1
      (by decide) (by decide)
  · exact (keyword_routing_spec ⟨[], .ok .null, "explore"⟩ "what should I pack").2.1
      (by decide) (by decide) (by decide)
  · exact (keyword_routing_spec ⟨[], .ok .null, "explore"⟩ "good morning").2.2 (by decide)

/-- C1 is violated: with the input `hello there` (no keyword or weather
match) and the LLM classifier replying `in_travel` — one of the options its
prompt offers — `root_agent_node` sets `current_agent` to
`in_travel_agent`, which is not among the three conditional-edge targets
wired by `build_travel_agent_graph`, so the dispatch receives a node name
outside the graph instead of falling back to `explore_agent`. -/
theorem root_agent_dispatch_bug :
    (root_agent_node ⟨[], .ok .null, "in_travel"⟩ "hello there").currentAgent =
      "in_travel_agent" ∧
    "in_travel_agent" ∉ travelGraphTargets ∧
    (root_agent_node ⟨[], .ok .null, "in_travel"⟩ "hello there").usedLLM = true := by
  exact ⟨by decide, by decide, by decide⟩
